import Mathlib

/-
  Verification of the wifiman connection manager (wifi_manager.cpp / wifi_manager.h).

  Shallow embedding conventions:
  * `uint8_t` values are modelled as `Nat`; the value 255 plays the role of the
    `(uint8_t)-1` "not found / error" sentinel.  `wifiman_create` rejects
    capacity 0 and 255, so every live registry has `capacity <= 254` and hence
    `length <= 254`; theorems that depend on the sentinel being out of range
    carry that bound as a hypothesis.
  * `ArduinoTime_t` (`unsigned long`, 32 bits on the ESP32) is modelled as `Nat`
    with explicit reduction mod 2^32 (`add32`/`sub32`).
  * The `WM_NetworkWorkingState` enum is an `int8_t`; it is modelled as `Int`
    with the three named constant values, matching the raw casts the code does
    when persisting the state byte.
  * C strings are modelled as `String` (null pointer = `none` of `Option
    String`).  `strcmp == 0` and the paired `strlen`/`memcmp` test of the
    byte-buffer overload both amount to exact string equality.
  * Fallible functions returning `(uint8_t)-1` keep the 255 sentinel; functions
    whose C counterpart writes through pointers return structures instead.
-/

namespace Wifiman

/-! ## Basic data model (wifi_manager.h) -/

def NETWORK_STATE_UNKNOWN : Int := -1
def NETWORK_FAILED_BEFORE : Int := 0
def NETWORK_WORKED_BEFORE : Int := 1

structure WM_WifiNetwork where
  ssid : String
  pass : Option String
  state : Int
deriving Repr, DecidableEq

structure WM_Status where
  targetNetwork : Nat
  code : Nat
  /-- Models the anonymous union of `connectAttempts` and `disconnectReason`. -/
  ctx : Nat
deriving Repr, DecidableEq

structure WM_SharedData where
  status : WM_Status
  networks : List WM_WifiNetwork
  capacity : Nat
deriving Repr, DecidableEq

def WM_IDLE_STATUS : Nat := 0
def CONNECTING : Nat := 1
def CONNECTED : Nat := 2
def DISCONNECTED : Nat := 3
def NETWORK_NOT_FOUND : Nat := 4
def CONNECTION_FAILED : Nat := 5

def WMRT_SIZE_MISMATCH : Int := -4
def WMRT_SCAN_NOT_READY : Int := -3
def WMRT_NETWORK_NOT_IN_LIST : Int := -2
def WMRT_NETWORK_LIST_FULL : Int := -1
def WMRT_SUCCESS : Int := 0
def WMRT_NETWORK_UPDATED : Int := 1

/-- esp-idf wifi disconnect reason codes used in the source. -/
def WIFI_REASON_AUTH_EXPIRE : Nat := 2
def WIFI_REASON_AUTH_LEAVE : Nat := 3
def WIFI_REASON_ASSOC_LEAVE : Nat := 8
def WIFI_REASON_4WAY_HANDSHAKE_TIMEOUT : Nat := 15
def WIFI_REASON_NO_AP_FOUND : Nat := 201
def WIFI_REASON_AUTH_FAIL : Nat := 202
def WIFI_REASON_HANDSHAKE_TIMEOUT : Nat := 204

def WM_SCAN_MAX_AGE_MS : Nat := 60000

/-! ## 32-bit wrapping arithmetic (`ArduinoTime_t` = `unsigned long`) -/

def U32 : Nat := 4294967296

/-- 32-bit wrapping addition. -/
def add32 (a b : Nat) : Nat := (a + b) % U32

/-- 32-bit wrapping subtraction `(a - b) mod 2^32`. -/
def sub32 (a b : Nat) : Nat := (a % U32 + (U32 - b % U32)) % U32

/-- `_time_now_or_passed` (wifi_manager.cpp:831-834):
    `return ((timeToTest - now - 1ul) & 0x80000000);` on 32-bit unsigned. -/
def _time_now_or_passed (timeToTest now : Nat) : Bool :=
  (sub32 (sub32 timeToTest now) 1) &&& 2147483648 != 0

/-! ## Registry lookups -/

/-- Position of the first entry with the given ssid (exact match), as in the
    linear scan of `wifiman_findNetworkInList`. -/
def findIdxOpt : List WM_WifiNetwork → String → Option Nat
  | [], _ => none
  | n :: rest, s => if n.ssid = s then some 0 else (findIdxOpt rest s).map (· + 1)

/-- `wifiman_findNetworkInList` (wifi_manager.cpp:356-370).  A null pointer is
    `none`; the empty-string guard (`ssid[0] == 0`) and failure return the
    `(uint8_t)-1` sentinel 255.  The `(const uint8_t*, len)` overload
    (lines 372-388) compares length (`strlen`) and bytes (`memcmp`) and is the
    same exact-equality search, so both overloads share this model. -/
def wifiman_findNetworkInList (data : WM_SharedData) (ssid : Option String) : Nat :=
  match ssid with
  | none => 255
  | some s =>
    if s = "" then 255
    else
      match findIdxOpt data.networks s with
      | some i => i
      | none => 255

/-- `wifiman_countUsableNetworks` (wifi_manager.cpp:390-407): counts entries
    with `state != 0`, i.e. not `NETWORK_FAILED_BEFORE`. -/
def wifiman_countUsableNetworks (data : WM_SharedData) : Nat :=
  data.networks.countP (fun n => decide (n.state ≠ NETWORK_FAILED_BEFORE))

/-! ## Registry mutation (wifi_manager.cpp:293-354) -/

/-- The linear search-and-update loop of `wifiman_addOrUpdateNetwork`
    (lines 299-312): on the first entry matching `ssid` replace its passphrase,
    reset its state to `NETWORK_STATE_UNKNOWN`, and report the match position. -/
def addOrUpdateGo (ssid : String) (pass : Option String) :
    List WM_WifiNetwork → Option (Nat × List WM_WifiNetwork)
  | [] => none
  | n :: rest =>
    if n.ssid = ssid then
      some (0, { n with pass := pass, state := NETWORK_STATE_UNKNOWN } :: rest)
    else
      (addOrUpdateGo ssid pass rest).map (fun p => (p.1 + 1, n :: p.2))

/-- `wifiman_addOrUpdateNetwork` (wifi_manager.cpp:293-328).
    Returns (index-or-255, new data, `existingUpdated` out-value).
    A null `ssid` fails with the 255 sentinel; an existing entry is updated in
    place; otherwise the entry is appended only when `length < capacity`. -/
def wifiman_addOrUpdateNetwork (data : WM_SharedData) (ssid : Option String)
    (pass : Option String) : Nat × WM_SharedData × Option Bool :=
  match ssid with
  | none => (255, data, none)
  | some s =>
    match addOrUpdateGo s pass data.networks with
    | some (i, nets) => (i, { data with networks := nets }, some true)
    | none =>
      if data.networks.length = data.capacity then
        (255, data, none)
      else
        (data.networks.length,
         { data with networks :=
            data.networks ++ [⟨s, pass, NETWORK_STATE_UNKNOWN⟩] },
         some false)

/-- `wifiman_deleteNetwork` (wifi_manager.cpp:335-354).  Out-of-range index
    fails with 255 and no mutation (a live registry never holds a null entry
    below `length`, so the `networks[index] == nullptr` test never fires).
    Otherwise the entry is removed, the tail shifted left, and
    `status.targetNetwork` cleared (if equal) or decremented (if above). -/
def wifiman_deleteNetwork (data : WM_SharedData) (index : Nat) :
    Nat × WM_SharedData :=
  if index ≥ data.networks.length then (255, data)
  else
    let nets := data.networks.eraseIdx index
    let tgt :=
      if data.status.targetNetwork = index then 255
      else if data.status.targetNetwork > index ∧ data.status.targetNetwork ≠ 255 then
        data.status.targetNetwork - 1
      else data.status.targetNetwork
    (index, { data with networks := nets, status := { data.status with targetNetwork := tgt } })

/-- `wifiman_deleteNetworkByName` (wifi_manager.cpp:330-333). -/
def wifiman_deleteNetworkByName (data : WM_SharedData) (ssid : Option String) :
    Nat × WM_SharedData :=
  wifiman_deleteNetwork data (wifiman_findNetworkInList data ssid)

/-- Validity invariant of a live registry: pairwise-distinct SSIDs and
    `length <= capacity` (spec section 3, claim C7). -/
def ValidRegistry (data : WM_SharedData) : Prop :=
  (data.networks.map WM_WifiNetwork.ssid).Nodup ∧
  data.networks.length ≤ data.capacity

instance (data : WM_SharedData) : Decidable (ValidRegistry data) := by
  unfold ValidRegistry; infer_instance

/-- A sequence of registry mutations (claim C7 quantifies over these). -/
inductive RegOp where
  | addOrUpdate (ssid : String) (pass : Option String)
  | deleteNet (index : Nat)
deriving Repr, DecidableEq

def applyRegOp (data : WM_SharedData) : RegOp → WM_SharedData
  | .addOrUpdate s p => (wifiman_addOrUpdateNetwork data (some s) p).2.1
  | .deleteNet i => (wifiman_deleteNetwork data i).2

def applyRegOps (data : WM_SharedData) (ops : List RegOp) : WM_SharedData :=
  ops.foldl applyRegOp data

/-! ## Connect request and event handlers (wifi_manager.cpp:409-499, 619-699)

The handlers run on the event-dispatch context.  They mutate the globals
`_wifiman_data`, `_wifiman_retryCount` and issue commands through
`_wifiman_connect` / `_wifiman_doScan`; the models are pure functions from the
relevant pre-state to a result record that carries the new state plus the
observable actions (issued commands, callback invocation, scan pause/resume). -/

/-- The backoff expression of `_wifiman_wifiDisconnectedEvent`
    (wifi_manager.cpp:687): `retryCount >= 3 ? 8000 : 1000 * (1 << retryCount)`. -/
def _wifiman_retryDelay (retryCount : Nat) : Nat :=
  if retryCount ≥ 3 then 8000 else 1000 * 2 ^ retryCount

structure ConnectRequestResult where
  data : WM_SharedData
  retryCount : Nat
  /-- `_wifiman_connect(index, byUser, delay)` argument triple, if issued. -/
  connectCmd : Option (Nat × Bool × Nat)
  callbackInvoked : Bool
deriving Repr, DecidableEq

/-- `wifiman_connectToNetwork` (wifi_manager.cpp:409-425).  The asserts
    `data != nullptr` and `index < data->length` are preconditions of callers;
    the state updates below are unconditional in the body. -/
def wifiman_connectToNetwork (data : WM_SharedData)
    (index : Nat) : ConnectRequestResult :=
  { data := { data with status :=
      { data.status with code := CONNECTING, targetNetwork := index } },
    retryCount := 0,
    connectCmd := some (index, true, 0),
    callbackInvoked := true }

structure ConnectedResult where
  data : WM_SharedData
  retryCount : Nat
  callbackInvoked : Bool
  scanPaused : Bool
deriving Repr, DecidableEq

/-- `_wifiman_wifiConnectedEvent` (wifi_manager.cpp:619-643).  `ssid` is the
    raw event SSID; `retryCount`, `autoConnect` are the globals.  Note the
    early return when the SSID is not in the list: the status update and the
    callback have already happened, but the retry counter is left untouched. -/
def _wifiman_wifiConnectedEvent (data : WM_SharedData) (retryCount : Nat)
    (autoConnect : Bool) (ssid : String) : ConnectedResult :=
  let index := wifiman_findNetworkInList data (some ssid)
  let status1 : WM_Status :=
    { code := CONNECTED, targetNetwork := index, ctx := (retryCount + 1) % 256 }
  if h : index < data.networks.length then
    { data := { data with
        status := status1,
        networks := data.networks.set index
          { data.networks.get ⟨index, h⟩ with state := NETWORK_WORKED_BEFORE } },
      retryCount := 0,
      callbackInvoked := true,
      scanPaused := autoConnect }
  else
    { data := { data with status := status1 },
      retryCount := retryCount,
      callbackInvoked := true,
      scanPaused := false }

structure DisconnectResult where
  data : WM_SharedData
  retryCount : Nat
  /-- `_wifiman_connect(index, false, delay)` of the scheduled automatic
      retry, as (index, delay), if the retry branch was taken. -/
  retryCmd : Option (Nat × Nat)
  callbackInvoked : Bool
  /-- Whether the trailing `_wifiman_checkConnection()` call was reached. -/
  ranCheckConnection : Bool
deriving Repr, DecidableEq

/-- `_wifiman_wifiDisconnectedEvent` (wifi_manager.cpp:645-699).
    `reason` is the esp-idf reason code (`uint8_t`, already < 256). -/
def _wifiman_wifiDisconnectedEvent (data : WM_SharedData)
    (retryCount maxRetries : Nat) (autoConnect : Bool)
    (ssid : String) (reason : Nat) : DisconnectResult :=
  let index := wifiman_findNetworkInList data (some ssid)
  -- the switch on the reason code (lines 657-675)
  let code :=
    if reason = WIFI_REASON_ASSOC_LEAVE ∨ reason = WIFI_REASON_AUTH_LEAVE then
      DISCONNECTED
    else if reason = WIFI_REASON_NO_AP_FOUND then NETWORK_NOT_FOUND
    else CONNECTION_FAILED
  let nets :=
    if reason = WIFI_REASON_ASSOC_LEAVE ∨ reason = WIFI_REASON_AUTH_LEAVE ∨
        reason = WIFI_REASON_NO_AP_FOUND then
      data.networks
    else if h : index < data.networks.length ∧ retryCount ≥ maxRetries then
      data.networks.set index
        { data.networks.get ⟨index, h.1⟩ with state := NETWORK_FAILED_BEFORE }
    else data.networks
  let status : WM_Status :=
    { code := code, targetNetwork := index, ctx := reason % 256 }
  let data1 : WM_SharedData := { data with status := status, networks := nets }
  -- retry decision (lines 680-698)
  if index < data.networks.length ∧ retryCount < maxRetries ∧
      reason ≠ WIFI_REASON_ASSOC_LEAVE then
    { data := data1,
      retryCount := retryCount + 1,
      retryCmd := some (index, _wifiman_retryDelay retryCount),
      callbackInvoked := false,
      ranCheckConnection := false }
  else
    { data := data1,
      retryCount := retryCount,
      retryCmd := none,
      callbackInvoked := true,
      ranCheckConnection := autoConnect ∧ reason ≠ WIFI_REASON_ASSOC_LEAVE }

/-! ## Best-network selector (wifi_manager.cpp:427-499) and
     `_wifiman_checkConnection` (wifi_manager.cpp:593-617) -/

/-- One slot of the radio driver's scan result: `WiFi.SSID(i)` / `WiFi.RSSI(i)`. -/
structure ScanItem where
  ssid : String
  rssi : Int
deriving Repr, DecidableEq

/-- `INT_MIN`, the initial value of `bestRSSI` (wifi_manager.cpp:459). -/
def INT_MIN : Int := -2147483648

/-- Default entry used to totalise `List.getD`; its state is
    `NETWORK_FAILED_BEFORE` so an (impossible) out-of-range access behaves
    like the skip branch of the selection loop. -/
def defEntry : WM_WifiNetwork := ⟨"", none, NETWORK_FAILED_BEFORE⟩

/-- A scan item that survives the skip test of the selection loop
    (wifi_manager.cpp:466): its SSID resolves to a registry index below
    `length` whose state is not `NETWORK_FAILED_BEFORE`. -/
def scanCandidate (data : WM_SharedData) (it : ScanItem) : Prop :=
  wifiman_findNetworkInList data (some it.ssid) < data.networks.length ∧
  (data.networks.getD (wifiman_findNetworkInList data (some it.ssid)) defEntry).state
    ≠ NETWORK_FAILED_BEFORE

instance (data : WM_SharedData) (it : ScanItem) :
    Decidable (scanCandidate data it) := by
  unfold scanCandidate; infer_instance

/-- The selection loop of `wifiman_connectToBestWifi` (wifi_manager.cpp:459-474):
    fold over the scan results carrying `(bestRSSI, bestIndex)`; skip items that
    are not in the list or failed before; take an item iff its RSSI is strictly
    greater than the running best (hence ties go to the earlier scan position). -/
def bestLoopAux (data : WM_SharedData) :
    List ScanItem → Int → Option Nat → Int × Option Nat
  | [], bestRSSI, bestIndex => (bestRSSI, bestIndex)
  | it :: rest, bestRSSI, bestIndex =>
    if scanCandidate data it then
      if it.rssi > bestRSSI then
        bestLoopAux data rest it.rssi
          (some (wifiman_findNetworkInList data (some it.ssid)))
      else bestLoopAux data rest bestRSSI bestIndex
    else bestLoopAux data rest bestRSSI bestIndex

/-- The selection step with its initial accumulator `(INT_MIN, -1)`. -/
def bestLoop (data : WM_SharedData) (scan : List ScanItem) : Int × Option Nat :=
  bestLoopAux data scan INT_MIN none

/-- The experimental reset pass (wifi_manager.cpp:479-483): every
    `NETWORK_FAILED_BEFORE` entry goes back to `NETWORK_STATE_UNKNOWN`. -/
def resetFailed (nets : List WM_WifiNetwork) : List WM_WifiNetwork :=
  nets.map (fun n =>
    if n.state = NETWORK_FAILED_BEFORE then { n with state := NETWORK_STATE_UNKNOWN }
    else n)

structure BestWifiResult where
  ret : Int
  data : WM_SharedData
  /-- `_wifiman_doScan(delay)` argument, if a scan command was issued. -/
  scanCmd : Option Nat
  /-- `_wifiman_connect(index, byUser, delay)` argument triple, if issued. -/
  connectCmd : Option (Nat × Bool × Nat)
  retryCount : Nat
  scanTime : Nat
  callbackInvoked : Bool
deriving Repr, DecidableEq

/-- `wifiman_connectToBestWifi` (wifi_manager.cpp:427-499).  Pure model over
    the ambient state: `now` is `millis()`, `scanTime` is `_wifiman_scanTime`,
    `scanComplete` is `WiFi.scanComplete()` (-2 not started, -1 running,
    otherwise the result count) and `scan` the scan result slots. -/
def wifiman_connectToBestWifi (data : WM_SharedData) (retryCount : Nat)
    (now scanTime : Nat) (scanComplete : Int) (scan : List ScanItem) :
    BestWifiResult :=
  if data.networks.length = 0 then
    { ret := WMRT_NETWORK_NOT_IN_LIST, data := data, scanCmd := none,
      connectCmd := none, retryCount := retryCount, scanTime := scanTime,
      callbackInvoked := false }
  else if sub32 now scanTime > WM_SCAN_MAX_AGE_MS then
    { ret := WMRT_SCAN_NOT_READY, data := data, scanCmd := some 0,
      connectCmd := none, retryCount := retryCount, scanTime := now,
      callbackInvoked := false }
  else if scanComplete = -2 then
    { ret := WMRT_SCAN_NOT_READY, data := data, scanCmd := some 0,
      connectCmd := none, retryCount := retryCount, scanTime := scanTime,
      callbackInvoked := false }
  else if scanComplete = -1 then
    { ret := WMRT_SCAN_NOT_READY, data := data, scanCmd := none,
      connectCmd := none, retryCount := retryCount, scanTime := scanTime,
      callbackInvoked := false }
  else if scanComplete = 0 then
    { ret := WMRT_NETWORK_NOT_IN_LIST, data := data, scanCmd := none,
      connectCmd := none, retryCount := retryCount, scanTime := scanTime,
      callbackInvoked := false }
  else
    match (bestLoop data scan).2 with
    | none =>
      { ret := WMRT_NETWORK_NOT_IN_LIST,
        data := { data with networks := resetFailed data.networks },
        scanCmd := none, connectCmd := none, retryCount := retryCount,
        scanTime := scanTime, callbackInvoked := false }
    | some bestIndex =>
      { ret := WMRT_SUCCESS,
        data := { data with status :=
          { data.status with code := CONNECTING, targetNetwork := bestIndex } },
        scanCmd := none, connectCmd := some (bestIndex, true, 0),
        retryCount := 0, scanTime := scanTime, callbackInvoked := true }

structure CheckConnectionResult where
  /-- The `wifiman_connectToBestWifi` call and its effects, if reached. -/
  best : Option BestWifiResult
  /-- `some true` = `_wifiman_scanResume()`, `some false` = `_wifiman_scanPause()`,
      `none` = neither was called. -/
  scanResumed : Option Bool
deriving Repr, DecidableEq

/-- `_wifiman_checkConnection` (wifi_manager.cpp:593-617).  `wlConnected`
    models `WiFi.status() == WL_CONNECTED`. -/
def _wifiman_checkConnection (data : WM_SharedData) (retryCount : Nat)
    (wlConnected : Bool) (now scanTime : Nat) (scanComplete : Int)
    (scan : List ScanItem) : CheckConnectionResult :=
  if wlConnected then { best := none, scanResumed := none }
  else if wifiman_countUsableNetworks data = 0 then
    { best := none, scanResumed := none }
  else
    let r := wifiman_connectToBestWifi data retryCount now scanTime scanComplete scan
    { best := some r, scanResumed := some (r.ret = WMRT_NETWORK_NOT_IN_LIST) }

/-! ## Persistence (wifi_manager.cpp:194-291)

The `Preferences` store is modelled as three partial maps indexed by the slot
number `i` of the printf keys `ssid%d` / `pass%d` / `stat%d`.  `putString` /
`putChar` store a value, `remove` deletes it, `isKey` is definedness, and
`getString(key, "")` / `getChar(key, 0)` read with those defaults. -/

structure EEPROM where
  ssidKey : Nat → Option String
  passKey : Nat → Option String
  stateKey : Nat → Option Int

def emptyEEPROM : EEPROM := ⟨fun _ => none, fun _ => none, fun _ => none⟩

def putSsid (e : EEPROM) (i : Nat) (v : String) : EEPROM :=
  { e with ssidKey := fun j => if j = i then some v else e.ssidKey j }

def putPass (e : EEPROM) (i : Nat) (v : String) : EEPROM :=
  { e with passKey := fun j => if j = i then some v else e.passKey j }

def putState (e : EEPROM) (i : Nat) (v : Int) : EEPROM :=
  { e with stateKey := fun j => if j = i then some v else e.stateKey j }

def removeSlot (e : EEPROM) (i : Nat) : EEPROM :=
  ⟨fun j => if j = i then none else e.ssidKey j,
   fun j => if j = i then none else e.passKey j,
   fun j => if j = i then none else e.stateKey j⟩

/-- The body of the save loop (wifi_manager.cpp:266-288), iterated `rem` times
    starting at slot `i`: the C `for` bound `i < startIndex + count && i <
    data->capacity` is precomputed as the iteration count `rem` since `i`
    advances by one per pass.  Slots below `length` are written (the pass key
    only when a passphrase is present); at slots at or beyond `length` an
    absent ssid key stops the loop, a present one is removed together with its
    companions. -/
def saveLoop (nets : List WM_WifiNetwork) : EEPROM → Nat → Nat → EEPROM
  | e, _, 0 => e
  | e, i, rem + 1 =>
    if h : i < nets.length then
      let n := nets.get ⟨i, h⟩
      let e1 := putSsid e i n.ssid
      let e2 := match n.pass with
        | some p => putPass e1 i p
        | none => e1
      let e3 := putState e2 i n.state
      saveLoop nets e3 (i + 1) rem
    else
      match e.ssidKey i with
      | none => e
      | some _ => saveLoop nets (removeSlot e i) (i + 1) rem

/-- `wifiman_saveToEEPROM` (wifi_manager.cpp:251-291).  `count = 255` is the
    `(uint8_t)-1` "save everything from startIndex" marker. -/
def wifiman_saveToEEPROM (data : WM_SharedData) (startIndex count : Nat)
    (e : EEPROM) : EEPROM :=
  if count = 0 then e
  else
    let count1 := if count = 255 then data.capacity - startIndex else count
    saveLoop data.networks e startIndex
      (min (startIndex + count1) data.capacity - startIndex)

/-- The body of the read loop (wifi_manager.cpp:212-244), iterated `rem` times
    starting at slot `i`, threading the networks list and `entriesRead`.  An
    absent ssid key stops the loop.  A slot below `length` overwrites the
    existing entry; the slot at `length` is appended (the C code writes
    `networks[i]` and increments `length`, which coincide there); a slot
    strictly beyond `length` would make the C code write past the populated
    prefix, leaving a gap the list model cannot represent, so the model
    returns `none` for it. -/
def readLoop (e : EEPROM) : List WM_WifiNetwork → Nat → Nat → Nat →
    Option (List WM_WifiNetwork × Nat)
  | nets, _, 0, acc => some (nets, acc)
  | nets, i, rem + 1, acc =>
    match e.ssidKey i with
    | none => some (nets, acc)
    | some s =>
      let pass := match e.passKey i with
        | some p => if p = "" then none else some p
        | none => none
      let entry : WM_WifiNetwork := ⟨s, pass, (e.stateKey i).getD 0⟩
      if i < nets.length then
        readLoop e (nets.set i entry) (i + 1) rem (acc + 1)
      else if i = nets.length then
        readLoop e (nets ++ [entry]) (i + 1) rem (acc + 1)
      else none

/-- `wifiman_readFromEEPROM` (wifi_manager.cpp:194-249).  Unlike save, the C
    read loop applies no special treatment to `count = 255`; its bound is
    `i < startIndex + count && i < data->capacity` directly.  Returns the
    updated registry and `entriesRead`. -/
def wifiman_readFromEEPROM (data : WM_SharedData) (startIndex count : Nat)
    (e : EEPROM) : Option (WM_SharedData × Nat) :=
  (readLoop e data.networks startIndex
      (min (startIndex + count) data.capacity - startIndex) 0).map
    (fun p => ({ data with networks := p.1 }, p.2))

/-! ## Command channel and worker loop (wifi_manager.cpp:35-52, 734-828)

The two mailboxes are lock-protected; the locks serialise the producer writes
(`_wifiman_connect`) against the consumer pull, so each is modelled as one
atomic step.  Only the connect mailbox matters for claim C1. -/

structure ConnectCmd where
  execTime : Nat
  networkIndex : Nat
  issuedByUser : Bool
  handled : Bool
deriving Repr, DecidableEq

structure WorkerState where
  /-- The shared slot `nextConnect`. -/
  nextConnect : ConnectCmd
  /-- The worker task's local working copy `connect`. -/
  connect : ConnectCmd
deriving Repr, DecidableEq

/-- `_wifiman_connect` (wifi_manager.cpp:734-746): publish a fresh command in
    the shared slot (`handled` written false last, under the lock). -/
def issueConnect (s : WorkerState) (index : Nat) (byUser : Bool)
    (execTime : Nat) : WorkerState :=
  { s with nextConnect :=
      { execTime := execTime, networkIndex := index,
        issuedByUser := byUser, handled := false } }

/-- The mailbox pull at the top of the worker cycle (wifi_manager.cpp:760-773).
    Returns the new state and whether the pending command was accepted into
    the local copy. -/
def pullConnect (s : WorkerState) : WorkerState × Bool :=
  if s.nextConnect.handled then (s, false)
  else if s.nextConnect.issuedByUser ∨ s.connect.handled ∨
      ¬ s.connect.issuedByUser then
    ({ nextConnect := { s.nextConnect with handled := true },
       connect := s.nextConnect }, true)
  else (s, false)

/-- The execute step of the worker cycle (wifi_manager.cpp:787-795): when the
    local command is unconsumed and due, fire the radio connect and mark it
    handled. -/
def execConnect (s : WorkerState) (now : Nat) : WorkerState :=
  if ¬ s.connect.handled ∧ _time_now_or_passed s.connect.execTime now then
    { s with connect := { s.connect with handled := true } }
  else s

/-- An interleaving event: a producer issuing a connect command, or one poll
    cycle of the worker task at time `now`. -/
inductive WEvent where
  | issue (index : Nat) (byUser : Bool) (execTime : Nat)
  | poll (now : Nat)
deriving Repr, DecidableEq

def wstep (s : WorkerState) : WEvent → WorkerState
  | .issue index byUser execTime => issueConnect s index byUser execTime
  | .poll now => execConnect (pullConnect s).1 now

def wrun (s : WorkerState) (es : List WEvent) : WorkerState :=
  es.foldl wstep s

/-! ## Helper lemmas -/

theorem findIdxOpt_eq_none (l : List WM_WifiNetwork) (s : String)
    (h : ∀ n ∈ l, n.ssid ≠ s) : findIdxOpt l s = none := by
  induction l with
  | nil => rfl
  | cons n rest ih =>
    unfold findIdxOpt
    rw [if_neg (h n (List.mem_cons_self n rest))]
    rw [ih (fun m hm => h m (List.mem_cons_of_mem n hm))]
    rfl

theorem findIdxOpt_some (l : List WM_WifiNetwork) (s : String) (i : Nat)
    (h : findIdxOpt l s = some i) :
    ∃ hi : i < l.length, (l.get ⟨i, hi⟩).ssid = s := by
  induction l generalizing i with
  | nil => simp [findIdxOpt] at h
  | cons n rest ih =>
    unfold findIdxOpt at h
    by_cases hn : n.ssid = s
    · rw [if_pos hn] at h
      cases h
      exact ⟨Nat.succ_pos _, hn⟩
    · rw [if_neg hn] at h
      match hrec : findIdxOpt rest s with
      | none => rw [hrec] at h; simp at h
      | some j =>
        rw [hrec] at h
        have h2 : j + 1 = i := by simpa using h
        subst h2
        obtain ⟨hj, hssid⟩ := ih j hrec
        exact ⟨Nat.succ_lt_succ hj, hssid⟩

theorem testBit31_true_iff (x : Nat) (hx : x < U32) :
    Nat.testBit x 31 = true ↔ 2147483648 ≤ x := by
  rw [Nat.testBit_to_div_mod]
  unfold U32 at hx
  have h31 : (2 : Nat) ^ 31 = 2147483648 := by norm_num
  rw [h31]
  simp only [decide_eq_true_eq]
  omega

theorem time_now_or_passed_iff_testBit (t now : Nat) :
    _time_now_or_passed t now = true ↔
      Nat.testBit (sub32 (sub32 t now) 1) 31 = true := by
  unfold _time_now_or_passed
  have h31 : (2147483648 : Nat) = 2 ^ 31 := by norm_num
  rw [h31, Nat.and_two_pow]
  cases h : Nat.testBit (sub32 (sub32 t now) 1) 31 <;> simp [h]

theorem sub32_lt (a b : Nat) : sub32 a b < U32 := by
  unfold sub32 U32
  omega

theorem sub32_add_cancel (t0 d e : Nat) :
    sub32 (add32 t0 d) (add32 t0 e) = sub32 d e := by
  unfold sub32 add32 U32
  omega

/-! ## Claim C9: wraparound-safe deadline test -/

/-- C9: the "deadline passed" test returns true iff bit 31 of
    `(deadline - now - 1) mod 2^32` is set; consequently, for a deadline
    scheduled `d < 2^31` ticks after an arbitrary schedule instant `t0`
    (including across counter overflow), the test is false at every instant
    strictly before the deadline and true at the deadline and for the
    following `2^31` ticks. -/
theorem claim_C9_deadline_test :
    (∀ t now : Nat,
      _time_now_or_passed t now = true ↔
        Nat.testBit (sub32 (sub32 t now) 1) 31 = true) ∧
    (∀ t0 d e : Nat, d < 2147483648 →
      (e < d → _time_now_or_passed (add32 t0 d) (add32 t0 e) = false) ∧
      (d ≤ e → e < d + 2147483648 →
        _time_now_or_passed (add32 t0 d) (add32 t0 e) = true)) := by
  constructor
  · exact time_now_or_passed_iff_testBit
  · intro t0 d e hd
    constructor
    · intro he
      rw [← Bool.not_eq_true, time_now_or_passed_iff_testBit, sub32_add_cancel]
      have hval : sub32 (sub32 d e) 1 = d - e - 1 := by
        unfold sub32 U32
        omega
      rw [hval, Bool.not_eq_true, ← Bool.not_eq_true]
      intro habs
      rw [testBit31_true_iff _ (by unfold U32; omega)] at habs
      omega
    · intro hde hlt
      rw [time_now_or_passed_iff_testBit, sub32_add_cancel]
      have hlow : 2147483648 ≤ sub32 (sub32 d e) 1 := by
        unfold sub32 U32
        omega
      exact (testBit31_true_iff _ (sub32_lt _ _)).mpr hlow

/-- Witness for C9 at a concrete overflow-crossing input: the deadline is 10
    ticks after t0 = 2^32 - 6 (so it wraps to 4); 8 ticks after t0 the test is
    false, 12 ticks after t0 it is true. -/
theorem claim_C9_deadline_test_witness :
    _time_now_or_passed (add32 4294967290 10) (add32 4294967290 8) = false ∧
    _time_now_or_passed (add32 4294967290 10) (add32 4294967290 12) = true :=
  ⟨(claim_C9_deadline_test.2 4294967290 10 8 (by norm_num)).1 (by norm_num),
   (claim_C9_deadline_test.2 4294967290 10 12 (by norm_num)).2 (by norm_num)
     (by norm_num)⟩

/-! ## Claim C1: connect-mailbox priority rule -/

/-- C1: a pull from the connect mailbox accepts the pending shared command
    into the worker's local copy iff the new command is user-issued, or the
    local copy is already fully handled, or the local copy is not itself
    user-issued; an accepted pull copies the shared slot verbatim; and in any
    state (hence along every interleaving of issues and polls) a manual
    command held unconsumed in the local copy survives a pull whose pending
    command is automatic. -/
theorem claim_C1_mailbox_priority :
    (∀ s : WorkerState, s.nextConnect.handled = false →
      ((pullConnect s).2 = true ↔
        (s.nextConnect.issuedByUser = true ∨ s.connect.handled = true ∨
          s.connect.issuedByUser = false))) ∧
    (∀ s : WorkerState, (pullConnect s).2 = true →
      (pullConnect s).1.connect = s.nextConnect) ∧
    (∀ s : WorkerState, s.connect.issuedByUser = true →
      s.connect.handled = false → s.nextConnect.issuedByUser = false →
      (pullConnect s).1.connect = s.connect) ∧
    (∀ (s : WorkerState) (es : List WEvent),
      (wrun s es).connect.issuedByUser = true →
      (wrun s es).connect.handled = false →
      (wrun s es).nextConnect.issuedByUser = false →
      (pullConnect (wrun s es)).1.connect = (wrun s es).connect) := by
  have hpres : ∀ s : WorkerState, s.connect.issuedByUser = true →
      s.connect.handled = false → s.nextConnect.issuedByUser = false →
      (pullConnect s).1.connect = s.connect := by
    intro s hu hh hnu
    unfold pullConnect
    by_cases h1 : s.nextConnect.handled
    · rw [if_pos h1]
    · rw [if_neg h1, if_neg]
      simp [hu, hh, hnu]
  refine ⟨?_, ?_, hpres, fun s es => hpres (wrun s es)⟩
  · intro s h
    unfold pullConnect
    rw [if_neg (by simp [h])]
    by_cases h2 : s.nextConnect.issuedByUser = true ∨ s.connect.handled = true ∨
        s.connect.issuedByUser = false
    · rw [if_pos (by simpa using h2)]
      simpa using h2
    · rw [if_neg (by simpa using h2)]
      simpa using h2
  · intro s h
    unfold pullConnect at h ⊢
    by_cases h1 : s.nextConnect.handled
    · rw [if_pos h1] at h; simp at h
    · rw [if_neg h1] at h ⊢
      by_cases h2 : s.nextConnect.issuedByUser = true ∨ s.connect.handled = true ∨
          s.connect.issuedByUser = false
      · rw [if_pos (by simpa using h2)]
      · rw [if_neg (by simpa using h2)] at h; simp at h

/-- Witness for C1: a state holding an unconsumed manual command locally and
    an unconsumed automatic command in the shared slot; the pull leaves the
    local copy untouched, and the acceptance test is indeed false. -/
theorem claim_C1_mailbox_priority_witness :
    (pullConnect ⟨⟨5000, 1, false, false⟩, ⟨0, 0, true, false⟩⟩).1.connect =
      (⟨0, 0, true, false⟩ : ConnectCmd) ∧
    ((pullConnect ⟨⟨5000, 1, false, false⟩, ⟨0, 0, true, false⟩⟩).2 = true ↔
      ((false : Bool) = true ∨ (false : Bool) = true ∨ (true : Bool) = false)) ∧
    (pullConnect (wrun ⟨⟨0, 0, true, true⟩, ⟨0, 0, true, true⟩⟩
        [WEvent.issue 2 true 100, WEvent.poll 0, WEvent.issue 3 false 200])).1.connect =
      (wrun ⟨⟨0, 0, true, true⟩, ⟨0, 0, true, true⟩⟩
        [WEvent.issue 2 true 100, WEvent.poll 0, WEvent.issue 3 false 200]).connect :=
  ⟨claim_C1_mailbox_priority.2.2.1 ⟨⟨5000, 1, false, false⟩, ⟨0, 0, true, false⟩⟩
      rfl rfl rfl,
   claim_C1_mailbox_priority.1 ⟨⟨5000, 1, false, false⟩, ⟨0, 0, true, false⟩⟩ rfl,
   claim_C1_mailbox_priority.2.2.2 ⟨⟨0, 0, true, true⟩, ⟨0, 0, true, true⟩⟩
      [WEvent.issue 2 true 100, WEvent.poll 0, WEvent.issue 3 false 200]
      (by decide) (by decide) (by decide)⟩

/-! ## Claim C10: delete-by-name on a missing network is a no-op -/

/-- C10: for a null, empty, or not-present SSID argument,
    `wifiman_deleteNetworkByName` returns the 255 sentinel and leaves the
    registry (entries, order) and the status record completely unchanged
    (the `length <= 254` bound holds for every registry `wifiman_create`
    can produce, since it rejects capacity 255). -/
theorem claim_C10_deleteByName_missing :
    ∀ (data : WM_SharedData) (ssid : Option String),
      data.networks.length ≤ 254 →
      (ssid = none ∨ ssid = some "" ∨
        (∀ s, ssid = some s → ∀ n ∈ data.networks, n.ssid ≠ s)) →
      wifiman_deleteNetworkByName data ssid = (255, data) := by
  intro data ssid hlen hcase
  have hfind : wifiman_findNetworkInList data ssid = 255 := by
    rcases hcase with h | h | h
    · rw [h]; rfl
    · rw [h]; simp [wifiman_findNetworkInList]
    · match ssid with
      | none => rfl
      | some s =>
        simp only [wifiman_findNetworkInList]
        by_cases hs : s = ""
        · rw [if_pos hs]
        · rw [if_neg hs, findIdxOpt_eq_none data.networks s (h s rfl)]
  unfold wifiman_deleteNetworkByName
  rw [hfind]
  unfold wifiman_deleteNetwork
  rw [if_pos (by omega)]

/-- Witness for C10 on a concrete two-entry registry, exercised with a null
    SSID, an empty SSID and an absent SSID. -/
theorem claim_C10_deleteByName_missing_witness :
    wifiman_deleteNetworkByName
      ⟨⟨0, 2, 0⟩, [⟨"home", some "pw", 1⟩, ⟨"work", none, -1⟩], 4⟩ none =
      (255, ⟨⟨0, 2, 0⟩, [⟨"home", some "pw", 1⟩, ⟨"work", none, -1⟩], 4⟩) ∧
    wifiman_deleteNetworkByName
      ⟨⟨0, 2, 0⟩, [⟨"home", some "pw", 1⟩, ⟨"work", none, -1⟩], 4⟩ (some "") =
      (255, ⟨⟨0, 2, 0⟩, [⟨"home", some "pw", 1⟩, ⟨"work", none, -1⟩], 4⟩) ∧
    wifiman_deleteNetworkByName
      ⟨⟨0, 2, 0⟩, [⟨"home", some "pw", 1⟩, ⟨"work", none, -1⟩], 4⟩ (some "cafe") =
      (255, ⟨⟨0, 2, 0⟩, [⟨"home", some "pw", 1⟩, ⟨"work", none, -1⟩], 4⟩) :=
  ⟨claim_C10_deleteByName_missing _ none (by decide) (Or.inl rfl),
   claim_C10_deleteByName_missing _ (some "") (by decide) (Or.inr (Or.inl rfl)),
   claim_C10_deleteByName_missing _ (some "cafe") (by decide)
     (Or.inr (Or.inr (by decide)))⟩

/-! ## Claim C2: deliberate-leave handling and the retry condition -/

/-- C2 counterexample: a disconnect with the deliberate-leave reason
    `WIFI_REASON_AUTH_LEAVE`, a known target index, and retries remaining
    does schedule an automatic retry connect command (the code's retry guard
    at wifi_manager.cpp:682 only excludes `WIFI_REASON_ASSOC_LEAVE`), although
    the claim states a deliberate leave is never retried. -/
theorem claim_C2_counterexample :
    (_wifiman_wifiDisconnectedEvent
        ⟨⟨0, CONNECTING, 0⟩, [⟨"home", some "pw", 1⟩], 4⟩ 0 2 false "home"
        WIFI_REASON_AUTH_LEAVE).retryCmd = some (0, 1000) ∧
    (_wifiman_wifiDisconnectedEvent
        ⟨⟨0, CONNECTING, 0⟩, [⟨"home", some "pw", 1⟩], 4⟩ 0 2 false "home"
        WIFI_REASON_AUTH_LEAVE).data.status.code = DISCONNECTED := by
  decide

/-- C2 (amended): a deliberate-leave disconnect (`WIFI_REASON_ASSOC_LEAVE` or
    `WIFI_REASON_AUTH_LEAVE`) sets `status.code` to `DISCONNECTED`; a retry is
    scheduled iff the target index is known, `retryCount < maxRetries` and the
    reason is not `WIFI_REASON_ASSOC_LEAVE` — so an `ASSOC_LEAVE` is never
    retried regardless of the retry counter, while an `AUTH_LEAVE` with a
    known index and retries remaining is retried. -/
theorem claim_C2_deliberate_leave :
    ∀ (data : WM_SharedData) (retryCount maxRetries : Nat) (autoConnect : Bool)
      (ssid : String) (reason : Nat),
      ((reason = WIFI_REASON_ASSOC_LEAVE ∨ reason = WIFI_REASON_AUTH_LEAVE) →
        (_wifiman_wifiDisconnectedEvent data retryCount maxRetries autoConnect
          ssid reason).data.status.code = DISCONNECTED) ∧
      ((_wifiman_wifiDisconnectedEvent data retryCount maxRetries autoConnect
          ssid reason).retryCmd ≠ none ↔
        (wifiman_findNetworkInList data (some ssid) < data.networks.length ∧
          retryCount < maxRetries ∧ reason ≠ WIFI_REASON_ASSOC_LEAVE)) ∧
      (reason = WIFI_REASON_ASSOC_LEAVE →
        (_wifiman_wifiDisconnectedEvent data retryCount maxRetries autoConnect
          ssid reason).retryCmd = none) := by
  intro data retryCount maxRetries autoConnect ssid reason
  simp only [_wifiman_wifiDisconnectedEvent]
  by_cases hr : wifiman_findNetworkInList data (some ssid) < data.networks.length ∧
      retryCount < maxRetries ∧ reason ≠ WIFI_REASON_ASSOC_LEAVE
  · rw [if_pos hr]
    refine ⟨?_, by simp [hr], fun ha => absurd ha hr.2.2⟩
    intro hleave
    rw [if_pos hleave]
  · rw [if_neg hr]
    refine ⟨?_, by simp [hr], fun _ => rfl⟩
    intro hleave
    rw [if_pos hleave]

/-- Witness for C2 (amended): an `ASSOC_LEAVE` disconnect with a known index
    and retries remaining gets status `DISCONNECTED` and no retry. -/
theorem claim_C2_deliberate_leave_witness :
    (_wifiman_wifiDisconnectedEvent
        ⟨⟨0, CONNECTING, 0⟩, [⟨"home", some "pw", 1⟩], 4⟩ 0 2 true "home"
        WIFI_REASON_ASSOC_LEAVE).data.status.code = DISCONNECTED ∧
    (_wifiman_wifiDisconnectedEvent
        ⟨⟨0, CONNECTING, 0⟩, [⟨"home", some "pw", 1⟩], 4⟩ 0 2 true "home"
        WIFI_REASON_ASSOC_LEAVE).retryCmd = none :=
  ⟨(claim_C2_deliberate_leave ⟨⟨0, CONNECTING, 0⟩, [⟨"home", some "pw", 1⟩], 4⟩
      0 2 true "home" WIFI_REASON_ASSOC_LEAVE).1 (Or.inl rfl),
   (claim_C2_deliberate_leave ⟨⟨0, CONNECTING, 0⟩, [⟨"home", some "pw", 1⟩], 4⟩
      0 2 true "home" WIFI_REASON_ASSOC_LEAVE).2.2 rfl⟩

/-! ## Claim C3: backoff delays and retry-counter resets -/

/-- C3 counterexample: a connect-success event whose SSID is not in the
    registry leaves the retry counter untouched (the early return at
    wifi_manager.cpp:634-635 precedes the reset at line 637), although the
    claim states the counter is reset on every connect-success event. -/
theorem claim_C3_counterexample :
    (_wifiman_wifiConnectedEvent
        ⟨⟨0, CONNECTING, 0⟩, [⟨"home", some "pw", 1⟩], 4⟩ 5 false
        "other").retryCount = 5 := by
  decide

/-- C3 (amended): the automatic-retry delay for counter value `r` is exactly
    `min 8000 (1000 * 2^r)` ms, so consecutive retries from `r = 0` are
    delayed 1000, 2000, 4000, 8000, 8000, 8000 ms, with the counter
    incremented after each scheduling; the counter is reset to 0 by every
    manually issued connect request (`connectToNetwork`, and the successful
    path of `connectToBestWifi`) and by a connect-success event whose SSID is
    found in the registry (but not by one whose SSID is unknown). -/
theorem claim_C3_backoff_and_reset :
    (∀ r : Nat, _wifiman_retryDelay r = min 8000 (1000 * 2 ^ r)) ∧
    ((List.range 6).map _wifiman_retryDelay =
      [1000, 2000, 4000, 8000, 8000, 8000]) ∧
    (∀ (data : WM_SharedData) (retryCount maxRetries : Nat) (autoConnect : Bool)
        (ssid : String) (reason : Nat) (i delay : Nat),
      (_wifiman_wifiDisconnectedEvent data retryCount maxRetries autoConnect
          ssid reason).retryCmd = some (i, delay) →
      delay = _wifiman_retryDelay retryCount ∧
      (_wifiman_wifiDisconnectedEvent data retryCount maxRetries autoConnect
          ssid reason).retryCount = retryCount + 1) ∧
    (∀ (data : WM_SharedData) (index : Nat),
      (wifiman_connectToNetwork data index).retryCount = 0) ∧
    (∀ (data : WM_SharedData) (retryCount : Nat) (now scanTime : Nat)
        (scanComplete : Int) (scan : List ScanItem),
      (wifiman_connectToBestWifi data retryCount now scanTime scanComplete
          scan).ret = WMRT_SUCCESS →
      (wifiman_connectToBestWifi data retryCount now scanTime scanComplete
          scan).retryCount = 0) ∧
    (∀ (data : WM_SharedData) (retryCount : Nat) (autoConnect : Bool)
        (ssid : String),
      wifiman_findNetworkInList data (some ssid) < data.networks.length →
      (_wifiman_wifiConnectedEvent data retryCount autoConnect
          ssid).retryCount = 0) := by
  refine ⟨?_, by decide, ?_, fun data index => rfl, ?_, ?_⟩
  · intro r
    unfold _wifiman_retryDelay
    by_cases h : r ≥ 3
    · rw [if_pos h]
      have h8 : (8000 : Nat) ≤ 1000 * 2 ^ r := by
        have : (2 : Nat) ^ 3 ≤ 2 ^ r := Nat.pow_le_pow_right (by norm_num) h
        calc (8000 : Nat) = 1000 * 2 ^ 3 := by norm_num
          _ ≤ 1000 * 2 ^ r := by exact Nat.mul_le_mul_left 1000 this
      omega
    · rw [if_neg h]
      interval_cases r <;> decide
  · intro data retryCount maxRetries autoConnect ssid reason i delay h
    simp only [_wifiman_wifiDisconnectedEvent] at h ⊢
    by_cases hr : wifiman_findNetworkInList data (some ssid) < data.networks.length ∧
        retryCount < maxRetries ∧ reason ≠ WIFI_REASON_ASSOC_LEAVE
    · rw [if_pos hr] at h ⊢
      simp only [Option.some_inj, Prod.mk.injEq] at h
      exact ⟨h.2.symm, rfl⟩
    · rw [if_neg hr] at h
      simp at h
  · intro data retryCount now scanTime scanComplete scan
    simp only [wifiman_connectToBestWifi]
    rcases hbl : (bestLoop data scan).2 with _ | b <;>
      simp only [hbl] <;> split_ifs <;> intro h <;>
      first
      | rfl
      | simp [WMRT_NETWORK_NOT_IN_LIST, WMRT_SCAN_NOT_READY, WMRT_SUCCESS] at h
  · intro data retryCount autoConnect ssid h
    simp only [_wifiman_wifiConnectedEvent]
    rw [dif_pos h]

/-- Witness for C3 (amended) at concrete inputs: the first two retry delays of
    a failing handshake are 1000 then 2000 ms with the counter stepping 0, 1,
    2; a best-wifi success resets the counter; a recognised connect event
    resets the counter. -/
theorem claim_C3_backoff_and_reset_witness :
    (1000 = _wifiman_retryDelay 0 ∧
      (_wifiman_wifiDisconnectedEvent
        ⟨⟨0, CONNECTING, 0⟩, [⟨"home", some "pw", 1⟩], 4⟩ 0 2 false "home"
        WIFI_REASON_4WAY_HANDSHAKE_TIMEOUT).retryCount = 0 + 1) ∧
    (wifiman_connectToBestWifi
      ⟨⟨255, WM_IDLE_STATUS, 0⟩, [⟨"home", some "pw", 1⟩], 4⟩ 3 1000 500 1
      [⟨"home", -40⟩]).retryCount = 0 ∧
    (_wifiman_wifiConnectedEvent
      ⟨⟨0, CONNECTING, 0⟩, [⟨"home", some "pw", 1⟩], 4⟩ 5 false
      "home").retryCount = 0 :=
  ⟨claim_C3_backoff_and_reset.2.2.1
      ⟨⟨0, CONNECTING, 0⟩, [⟨"home", some "pw", 1⟩], 4⟩ 0 2 false "home"
      WIFI_REASON_4WAY_HANDSHAKE_TIMEOUT 0 1000 (by decide),
   claim_C3_backoff_and_reset.2.2.2.2.1
      ⟨⟨255, WM_IDLE_STATUS, 0⟩, [⟨"home", some "pw", 1⟩], 4⟩ 3 1000 500 1
      [⟨"home", -40⟩] (by decide),
   claim_C3_backoff_and_reset.2.2.2.2.2
      ⟨⟨0, CONNECTING, 0⟩, [⟨"home", some "pw", 1⟩], 4⟩ 5 false "home"
      (by decide)⟩

/-! ## Claim C4: status callback invocation -/

/-- C4 counterexample: a handshake-timeout disconnect with retries remaining
    changes `status.code` (here from `CONNECTING` to `CONNECTION_FAILED`) yet
    does not invoke the status callback — the callback call at
    wifi_manager.cpp:693-694 sits in the no-retry branch only, as the header
    note at wifi_manager.h:124 documents. -/
theorem claim_C4_counterexample :
    (_wifiman_wifiDisconnectedEvent
        ⟨⟨0, CONNECTING, 0⟩, [⟨"home", some "pw", 1⟩], 4⟩ 0 2 false "home"
        WIFI_REASON_4WAY_HANDSHAKE_TIMEOUT).data.status.code ≠ CONNECTING ∧
    (_wifiman_wifiDisconnectedEvent
        ⟨⟨0, CONNECTING, 0⟩, [⟨"home", some "pw", 1⟩], 4⟩ 0 2 false "home"
        WIFI_REASON_4WAY_HANDSHAKE_TIMEOUT).callbackInvoked = false := by
  decide

/-- C4 (amended): the status callback is invoked synchronously by every
    connect-by-index request, by the successful path of connect-to-best
    (whose other paths leave the status record unchanged), and by every
    connected event; a disconnect event invokes it iff no automatic retry is
    scheduled — a disconnect followed by a retry updates `status.code`
    silently. -/
theorem claim_C4_status_callback :
    (∀ (data : WM_SharedData) (index : Nat),
      (wifiman_connectToNetwork data index).callbackInvoked = true) ∧
    (∀ (data : WM_SharedData) (retryCount : Nat) (now scanTime : Nat)
        (scanComplete : Int) (scan : List ScanItem),
      ((wifiman_connectToBestWifi data retryCount now scanTime scanComplete
          scan).callbackInvoked = true ↔
        (wifiman_connectToBestWifi data retryCount now scanTime scanComplete
          scan).ret = WMRT_SUCCESS) ∧
      ((wifiman_connectToBestWifi data retryCount now scanTime scanComplete
          scan).ret ≠ WMRT_SUCCESS →
        (wifiman_connectToBestWifi data retryCount now scanTime scanComplete
          scan).data.status = data.status)) ∧
    (∀ (data : WM_SharedData) (retryCount : Nat) (autoConnect : Bool)
        (ssid : String),
      (_wifiman_wifiConnectedEvent data retryCount autoConnect
          ssid).callbackInvoked = true) ∧
    (∀ (data : WM_SharedData) (retryCount maxRetries : Nat) (autoConnect : Bool)
        (ssid : String) (reason : Nat),
      ((_wifiman_wifiDisconnectedEvent data retryCount maxRetries autoConnect
          ssid reason).callbackInvoked = true ↔
        (_wifiman_wifiDisconnectedEvent data retryCount maxRetries autoConnect
          ssid reason).retryCmd = none)) := by
  refine ⟨fun data index => rfl, ?_, ?_, ?_⟩
  · intro data retryCount now scanTime scanComplete scan
    simp only [wifiman_connectToBestWifi]
    split_ifs <;>
      try exact ⟨by simp [WMRT_NETWORK_NOT_IN_LIST, WMRT_SCAN_NOT_READY,
        WMRT_SUCCESS], fun _ => rfl⟩
    split
    · exact ⟨by simp [WMRT_NETWORK_NOT_IN_LIST, WMRT_SUCCESS], fun _ => rfl⟩
    · exact ⟨by simp, fun h => absurd rfl h⟩
  · intro data retryCount autoConnect ssid
    simp only [_wifiman_wifiConnectedEvent]
    split <;> rfl
  · intro data retryCount maxRetries autoConnect ssid reason
    simp only [_wifiman_wifiDisconnectedEvent]
    split_ifs <;> simp

/-- Witness for C4 (amended) at concrete inputs: a final-try disconnect (the
    retry budget exhausted) invokes the callback; a successful best-wifi
    request invokes it; a scan-not-ready best-wifi request leaves the status
    record unchanged. -/
theorem claim_C4_status_callback_witness :
    ((_wifiman_wifiDisconnectedEvent
        ⟨⟨0, CONNECTING, 0⟩, [⟨"home", some "pw", 1⟩], 4⟩ 2 2 false "home"
        WIFI_REASON_4WAY_HANDSHAKE_TIMEOUT).callbackInvoked = true ↔
      (_wifiman_wifiDisconnectedEvent
        ⟨⟨0, CONNECTING, 0⟩, [⟨"home", some "pw", 1⟩], 4⟩ 2 2 false "home"
        WIFI_REASON_4WAY_HANDSHAKE_TIMEOUT).retryCmd = none) ∧
    ((wifiman_connectToBestWifi
        ⟨⟨255, WM_IDLE_STATUS, 0⟩, [⟨"home", some "pw", 1⟩], 4⟩ 0 70000 0 1
        [⟨"home", -40⟩]).ret ≠ WMRT_SUCCESS →
      (wifiman_connectToBestWifi
        ⟨⟨255, WM_IDLE_STATUS, 0⟩, [⟨"home", some "pw", 1⟩], 4⟩ 0 70000 0 1
        [⟨"home", -40⟩]).data.status = (⟨255, WM_IDLE_STATUS, 0⟩ : WM_Status)) :=
  ⟨(claim_C4_status_callback.2.2.2
      ⟨⟨0, CONNECTING, 0⟩, [⟨"home", some "pw", 1⟩], 4⟩ 2 2 false "home"
      WIFI_REASON_4WAY_HANDSHAKE_TIMEOUT),
   (claim_C4_status_callback.2.1
      ⟨⟨255, WM_IDLE_STATUS, 0⟩, [⟨"home", some "pw", 1⟩], 4⟩ 0 70000 0 1
      [⟨"home", -40⟩]).2⟩

/-! ## Claim C6: connect-to-best with no usable entry -/

/-- C6 counterexample: a registry with one entry (marked `FAILED_BEFORE`, so
    zero usable entries) and a stale scan: the direct connect-to-best request
    issues a scan command and reports `ScanNotReady` (the guard at
    wifi_manager.cpp:431 only tests `length == 0`, not the usable count),
    although the claim says it must report `NetworkNotInList` and take no
    action. -/
theorem claim_C6_counterexample :
    wifiman_countUsableNetworks
      ⟨⟨255, WM_IDLE_STATUS, 0⟩, [⟨"home", some "pw", 0⟩], 4⟩ = 0 ∧
    (wifiman_connectToBestWifi
      ⟨⟨255, WM_IDLE_STATUS, 0⟩, [⟨"home", some "pw", 0⟩], 4⟩ 0 70000 0 0
      []).ret = WMRT_SCAN_NOT_READY ∧
    (wifiman_connectToBestWifi
      ⟨⟨255, WM_IDLE_STATUS, 0⟩, [⟨"home", some "pw", 0⟩], 4⟩ 0 70000 0 0
      []).scanCmd = some 0 := by
  decide

/-- C6 (amended): a connect-to-best request on an empty registry
    (`length = 0`) reports `NetworkNotInList` and takes no action at all;
    when the registry is non-empty but has zero usable entries, the direct
    request may still act (e.g. issue a scan, see the counterexample), while
    the autonomous connection check performs no connect-to-best whatsoever
    when the usable count is zero (and likewise when already connected). -/
theorem claim_C6_no_usable_networks :
    (∀ (data : WM_SharedData) (retryCount now scanTime : Nat)
        (scanComplete : Int) (scan : List ScanItem),
      data.networks.length = 0 →
      wifiman_connectToBestWifi data retryCount now scanTime scanComplete scan =
        ⟨WMRT_NETWORK_NOT_IN_LIST, data, none, none, retryCount, scanTime,
          false⟩) ∧
    (∀ (data : WM_SharedData) (retryCount now scanTime : Nat)
        (scanComplete : Int) (scan : List ScanItem),
      wifiman_countUsableNetworks data = 0 →
      _wifiman_checkConnection data retryCount false now scanTime scanComplete
        scan = ⟨none, none⟩) ∧
    (∀ (data : WM_SharedData) (retryCount now scanTime : Nat)
        (scanComplete : Int) (scan : List ScanItem),
      _wifiman_checkConnection data retryCount true now scanTime scanComplete
        scan = ⟨none, none⟩) := by
  refine ⟨?_, ?_, ?_⟩
  · intro data retryCount now scanTime scanComplete scan h
    unfold wifiman_connectToBestWifi
    rw [if_pos h]
  · intro data retryCount now scanTime scanComplete scan h
    unfold _wifiman_checkConnection
    rw [if_neg (by simp), if_pos h]
  · intro data retryCount now scanTime scanComplete scan
    unfold _wifiman_checkConnection
    rw [if_pos rfl]

/-- Witness for C6 (amended) at concrete inputs: an empty registry gets
    `NetworkNotInList` with no action; the autonomous check does nothing on
    an all-failed registry. -/
theorem claim_C6_no_usable_networks_witness :
    wifiman_connectToBestWifi ⟨⟨255, WM_IDLE_STATUS, 0⟩, [], 4⟩ 0 70000 0 0 [] =
      ⟨WMRT_NETWORK_NOT_IN_LIST, ⟨⟨255, WM_IDLE_STATUS, 0⟩, [], 4⟩, none, none,
        0, 0, false⟩ ∧
    _wifiman_checkConnection
      ⟨⟨255, WM_IDLE_STATUS, 0⟩, [⟨"home", some "pw", 0⟩], 4⟩ 0 false 70000 0 0
      [] = ⟨none, none⟩ :=
  ⟨claim_C6_no_usable_networks.1 ⟨⟨255, WM_IDLE_STATUS, 0⟩, [], 4⟩ 0 70000 0 0
      [] (by decide),
   claim_C6_no_usable_networks.2.1
      ⟨⟨255, WM_IDLE_STATUS, 0⟩, [⟨"home", some "pw", 0⟩], 4⟩ 0 70000 0 0 []
      (by decide)⟩

/-! ## Claim C7: registry invariants under add/update/delete -/

theorem addOrUpdateGo_eq_none_iff (s : String) (p : Option String)
    (l : List WM_WifiNetwork) :
    addOrUpdateGo s p l = none ↔ ∀ n ∈ l, n.ssid ≠ s := by
  induction l with
  | nil => simp [addOrUpdateGo]
  | cons n rest ih =>
    unfold addOrUpdateGo
    by_cases hn : n.ssid = s
    · rw [if_pos hn]
      simp [hn]
    · rw [if_neg hn]
      simp [Option.map_eq_none', ih, hn]

theorem addOrUpdateGo_some_spec (s : String) (p : Option String) :
    ∀ (l : List WM_WifiNetwork) (i : Nat) (l' : List WM_WifiNetwork),
      addOrUpdateGo s p l = some (i, l') →
      ∃ hi : i < l.length,
        (l.get ⟨i, hi⟩).ssid = s ∧
        l' = l.set i ⟨(l.get ⟨i, hi⟩).ssid, p, NETWORK_STATE_UNKNOWN⟩ := by
  intro l
  induction l with
  | nil => intro i l' h; simp [addOrUpdateGo] at h
  | cons n rest ih =>
    intro i l' h
    unfold addOrUpdateGo at h
    by_cases hn : n.ssid = s
    · rw [if_pos hn] at h
      simp only [Option.some_inj, Prod.mk.injEq] at h
      obtain ⟨hi, hl⟩ := h
      subst hi
      exact ⟨Nat.succ_pos _, hn, by rw [← hl]; rfl⟩
    · rw [if_neg hn] at h
      match hrec : addOrUpdateGo s p rest with
      | none => rw [hrec] at h; simp at h
      | some (j, rest') =>
        rw [hrec] at h
        have h2 : j + 1 = i ∧ n :: rest' = l' := by simpa using h
        obtain ⟨hi2, hl⟩ := h2
        subst hi2
        subst hl
        obtain ⟨hj, hs, hrest⟩ := ih j rest' hrec
        refine ⟨Nat.succ_lt_succ hj, hs, ?_⟩
        rw [hrest]
        rfl

theorem map_ssid_set_same (l : List WM_WifiNetwork) (i : Nat)
    (e : WM_WifiNetwork) (hi : i < l.length)
    (he : e.ssid = (l.get ⟨i, hi⟩).ssid) :
    (l.set i e).map WM_WifiNetwork.ssid = l.map WM_WifiNetwork.ssid := by
  induction l generalizing i with
  | nil => simp at hi
  | cons n rest ih =>
    match i with
    | 0 => simpa using he
    | j + 1 =>
      have := ih j (Nat.lt_of_succ_lt_succ hi) he
      simpa using this

theorem applyRegOp_valid (data : WM_SharedData) (op : RegOp)
    (h : ValidRegistry data) : ValidRegistry (applyRegOp data op) := by
  obtain ⟨hnd, hlen⟩ := h
  cases op with
  | addOrUpdate s p =>
    simp only [applyRegOp, wifiman_addOrUpdateNetwork]
    rcases hgo : addOrUpdateGo s p data.networks with _ | ⟨i, nets⟩ <;>
      simp only [hgo]
    · by_cases hcap : data.networks.length = data.capacity
      · rw [if_pos hcap]
        exact ⟨hnd, hlen⟩
      · rw [if_neg hcap]
        have habs : s ∉ data.networks.map WM_WifiNetwork.ssid := by
          intro hmem
          obtain ⟨n, hn, hns⟩ := List.mem_map.mp hmem
          exact ((addOrUpdateGo_eq_none_iff s p data.networks).mp hgo n hn) hns
        constructor
        · rw [List.map_append]
          rw [List.nodup_append]
          exact ⟨hnd, List.nodup_singleton _,
            by intro a ha hb; simp at hb; subst hb; exact habs ha⟩
        · rw [List.length_append]
          simp only [List.length_singleton]
          omega
    · obtain ⟨hi, hs, hset⟩ :=
        addOrUpdateGo_some_spec s p data.networks i nets hgo
      subst hset
      constructor
      · show (List.map WM_WifiNetwork.ssid (data.networks.set i
          (WM_WifiNetwork.mk (data.networks.get ⟨i, hi⟩).ssid p
            NETWORK_STATE_UNKNOWN))).Nodup
        rw [map_ssid_set_same data.networks i
          (WM_WifiNetwork.mk (data.networks.get ⟨i, hi⟩).ssid p
            NETWORK_STATE_UNKNOWN) hi rfl]
        exact hnd
      · show (data.networks.set i
          (WM_WifiNetwork.mk (data.networks.get ⟨i, hi⟩).ssid p
            NETWORK_STATE_UNKNOWN)).length ≤ data.capacity
        rw [List.length_set]
        exact hlen
  | deleteNet i =>
    simp only [applyRegOp, wifiman_deleteNetwork]
    by_cases hi : i ≥ data.networks.length
    · rw [if_pos hi]
      exact ⟨hnd, hlen⟩
    · rw [if_neg hi]
      have hsub := List.eraseIdx_sublist data.networks i
      exact ⟨hnd.sublist (hsub.map WM_WifiNetwork.ssid),
        le_trans hsub.length_le hlen⟩

/-- C7: under every sequence of add/update/delete operations a valid registry
    keeps its SSIDs pairwise distinct and `length <= capacity`; an
    add-or-update whose SSID already exists updates that entry in place
    (new passphrase, state reset to Unknown) without growing the list, and an
    absent SSID is appended exactly when `length < capacity` (a full registry
    is left unchanged with the 255 error sentinel). -/
theorem claim_C7_registry_invariant :
    (∀ (data : WM_SharedData) (ops : List RegOp),
      ValidRegistry data → ValidRegistry (applyRegOps data ops)) ∧
    (∀ (data : WM_SharedData) (s : String) (p : Option String),
      (∃ n ∈ data.networks, n.ssid = s) →
      ∃ i, ∃ hi : i < data.networks.length,
        (data.networks.get ⟨i, hi⟩).ssid = s ∧
        wifiman_addOrUpdateNetwork data (some s) p =
          (i,
           { data with
               networks := data.networks.set i
                 (WM_WifiNetwork.mk (data.networks.get ⟨i, hi⟩).ssid p
                   NETWORK_STATE_UNKNOWN) },
           some true)) ∧
    (∀ (data : WM_SharedData) (s : String) (p : Option String),
      (∀ n ∈ data.networks, n.ssid ≠ s) →
      (data.networks.length < data.capacity →
        wifiman_addOrUpdateNetwork data (some s) p =
          (data.networks.length,
            { data with networks :=
                data.networks ++ [⟨s, p, NETWORK_STATE_UNKNOWN⟩] },
            some false)) ∧
      (data.networks.length = data.capacity →
        wifiman_addOrUpdateNetwork data (some s) p = (255, data, none))) := by
  refine ⟨?_, ?_, ?_⟩
  · intro data ops
    induction ops generalizing data with
    | nil => exact fun h => h
    | cons op rest ih =>
      intro h
      exact ih (applyRegOp data op) (applyRegOp_valid data op h)
  · intro data s p hmem
    rcases hgo : addOrUpdateGo s p data.networks with _ | ⟨i, nets⟩
    · obtain ⟨n, hn, hns⟩ := hmem
      exact absurd hns ((addOrUpdateGo_eq_none_iff s p data.networks).mp hgo n hn)
    · obtain ⟨hi, hs, hset⟩ :=
        addOrUpdateGo_some_spec s p data.networks i nets hgo
      refine ⟨i, hi, hs, ?_⟩
      simp only [wifiman_addOrUpdateNetwork, hgo]
      rw [hset]
  · intro data s p habs
    have hgo := (addOrUpdateGo_eq_none_iff s p data.networks).mpr habs
    simp only [wifiman_addOrUpdateNetwork, hgo]
    constructor
    · intro hlt
      rw [if_neg (by omega)]
    · intro heq
      rw [if_pos heq]

/-- Witness for C7 at concrete inputs: a five-operation history on a
    capacity-2 registry stays valid; an update of an existing SSID rewrites
    in place; an append happens below capacity and is refused at capacity. -/
theorem claim_C7_registry_invariant_witness :
    ValidRegistry (applyRegOps ⟨⟨255, WM_IDLE_STATUS, 0⟩, [], 2⟩
      [RegOp.addOrUpdate "a" none, RegOp.addOrUpdate "b" (some "pw"),
       RegOp.addOrUpdate "a" (some "q"), RegOp.deleteNet 0,
       RegOp.addOrUpdate "c" none]) ∧
    wifiman_addOrUpdateNetwork
      ⟨⟨255, WM_IDLE_STATUS, 0⟩, [⟨"a", none, 1⟩], 2⟩ (some "b") none =
      (1, ⟨⟨255, WM_IDLE_STATUS, 0⟩, [⟨"a", none, 1⟩, ⟨"b", none, -1⟩], 2⟩,
        some false) ∧
    wifiman_addOrUpdateNetwork
      ⟨⟨255, WM_IDLE_STATUS, 0⟩, [⟨"a", none, 1⟩, ⟨"b", none, -1⟩], 2⟩
      (some "c") none =
      (255, ⟨⟨255, WM_IDLE_STATUS, 0⟩, [⟨"a", none, 1⟩, ⟨"b", none, -1⟩], 2⟩,
        none) :=
  ⟨claim_C7_registry_invariant.1 ⟨⟨255, WM_IDLE_STATUS, 0⟩, [], 2⟩
      [RegOp.addOrUpdate "a" none, RegOp.addOrUpdate "b" (some "pw"),
       RegOp.addOrUpdate "a" (some "q"), RegOp.deleteNet 0,
       RegOp.addOrUpdate "c" none] (by decide),
   (claim_C7_registry_invariant.2.2
      ⟨⟨255, WM_IDLE_STATUS, 0⟩, [⟨"a", none, 1⟩], 2⟩ "b" none (by decide)).1
      (by decide),
   (claim_C7_registry_invariant.2.2
      ⟨⟨255, WM_IDLE_STATUS, 0⟩, [⟨"a", none, 1⟩, ⟨"b", none, -1⟩], 2⟩ "c" none
      (by decide)).2 (by decide)⟩

/-! ## Claim C5: best-network selection -/

theorem bestLoopAux_no_improve (data : WM_SharedData) :
    ∀ (l : List ScanItem) (br : Int) (bi : Option Nat),
      (∀ it ∈ l, scanCandidate data it → it.rssi ≤ br) →
      bestLoopAux data l br bi = (br, bi) := by
  intro l
  induction l with
  | nil => intro br bi _; rfl
  | cons it rest ih =>
    intro br bi h
    simp only [bestLoopAux]
    by_cases hc : scanCandidate data it
    · have hle := h it (List.mem_cons_self it rest) hc
      rw [if_pos hc, if_neg (by omega)]
      exact ih br bi (fun x hx => h x (List.mem_cons_of_mem it hx))
    · rw [if_neg hc]
      exact ih br bi (fun x hx => h x (List.mem_cons_of_mem it hx))

theorem bestLoopAux_improve (data : WM_SharedData) :
    ∀ (l : List ScanItem) (br : Int) (bi : Option Nat),
      (∃ it ∈ l, scanCandidate data it ∧ br < it.rssi) →
      ∃ j, ∃ hj : j < l.length,
        scanCandidate data (l.get ⟨j, hj⟩) ∧ br < (l.get ⟨j, hj⟩).rssi ∧
        bestLoopAux data l br bi =
          ((l.get ⟨j, hj⟩).rssi,
            some (wifiman_findNetworkInList data (some (l.get ⟨j, hj⟩).ssid))) ∧
        (∀ k, ∀ hk : k < l.length, scanCandidate data (l.get ⟨k, hk⟩) →
          (l.get ⟨k, hk⟩).rssi ≤ (l.get ⟨j, hj⟩).rssi) ∧
        (∀ k, ∀ hk : k < l.length, k < j → scanCandidate data (l.get ⟨k, hk⟩) →
          (l.get ⟨k, hk⟩).rssi < (l.get ⟨j, hj⟩).rssi) := by
  intro l
  induction l with
  | nil =>
    rintro br bi ⟨it, hmem, _⟩
    simp at hmem
  | cons it rest ih =>
    intro br bi hex
    simp only [bestLoopAux]
    by_cases hc : scanCandidate data it
    · by_cases hgt : it.rssi > br
      · rw [if_pos hc, if_pos hgt]
        by_cases hex2 : ∃ x ∈ rest, scanCandidate data x ∧ it.rssi < x.rssi
        · obtain ⟨j', hj', hcand', hgt', heq', hmax', hfirst'⟩ :=
            ih it.rssi (some (wifiman_findNetworkInList data (some it.ssid))) hex2
          refine ⟨j' + 1, Nat.succ_lt_succ hj', hcand', ?_, heq', ?_, ?_⟩
          · exact lt_trans hgt hgt'
          · intro k hk hck
            cases k with
            | zero => exact le_of_lt hgt'
            | succ k' => exact hmax' k' (Nat.lt_of_succ_lt_succ hk) hck
          · intro k hk hkj hck
            cases k with
            | zero => exact hgt'
            | succ k' =>
              exact hfirst' k' (Nat.lt_of_succ_lt_succ hk)
                (Nat.lt_of_succ_lt_succ hkj) hck
        · push_neg at hex2
          have heq := bestLoopAux_no_improve data rest it.rssi
            (some (wifiman_findNetworkInList data (some it.ssid)))
            (fun x hx hcx => hex2 x hx hcx)
          refine ⟨0, Nat.succ_pos _, hc, hgt, heq, ?_, ?_⟩
          · intro k hk hck
            cases k with
            | zero => exact le_refl _
            | succ k' => exact hex2 _ (rest.get_mem _ _) hck
          · intro k hk hkj hck
            omega
      · rw [if_pos hc, if_neg hgt]
        obtain ⟨x, hxmem, hxc, hxlt⟩ := hex
        rcases List.mem_cons.mp hxmem with hxit | hxrest
        · subst hxit
          omega
        · obtain ⟨j', hj', hcand', hgt', heq', hmax', hfirst'⟩ :=
            ih br bi ⟨x, hxrest, hxc, hxlt⟩
          refine ⟨j' + 1, Nat.succ_lt_succ hj', hcand', hgt', heq', ?_, ?_⟩
          · intro k hk hck
            cases k with
            | zero =>
              have : it.rssi ≤ br := by omega
              exact le_of_lt (lt_of_le_of_lt this hgt')
            | succ k' => exact hmax' k' (Nat.lt_of_succ_lt_succ hk) hck
          · intro k hk hkj hck
            cases k with
            | zero =>
              have : it.rssi ≤ br := by omega
              exact lt_of_le_of_lt this hgt'
            | succ k' =>
              exact hfirst' k' (Nat.lt_of_succ_lt_succ hk)
                (Nat.lt_of_succ_lt_succ hkj) hck
    · rw [if_neg hc]
      obtain ⟨x, hxmem, hxc, hxlt⟩ := hex
      rcases List.mem_cons.mp hxmem with hxit | hxrest
      · subst hxit
        exact absurd hxc hc
      · obtain ⟨j', hj', hcand', hgt', heq', hmax', hfirst'⟩ :=
          ih br bi ⟨x, hxrest, hxc, hxlt⟩
        refine ⟨j' + 1, Nat.succ_lt_succ hj', hcand', hgt', heq', ?_, ?_⟩
        · intro k hk hck
          cases k with
          | zero => exact absurd hck hc
          | succ k' => exact hmax' k' (Nat.lt_of_succ_lt_succ hk) hck
        · intro k hk hkj hck
          cases k with
          | zero => exact absurd hck hc
          | succ k' =>
            exact hfirst' k' (Nat.lt_of_succ_lt_succ hk)
              (Nat.lt_of_succ_lt_succ hkj) hck

/-- C5: whenever the selection loop runs over a scan result containing at
    least one item matching a non-failed registry entry (all RSSI values above
    `INT_MIN`, and the uint8 registry bound), the selected index is the
    looked-up registry index of some scan item `j` that matches a non-failed
    entry, whose RSSI is maximal among all such candidates, every earlier
    candidate being strictly weaker (ties broken by earliest scan position);
    in particular the selected entry is never a `FAILED_BEFORE` entry. -/
theorem claim_C5_best_network_selection :
    ∀ (data : WM_SharedData) (scan : List ScanItem),
      data.networks.length ≤ 254 →
      (∀ it ∈ scan, INT_MIN < it.rssi) →
      (∃ it ∈ scan, scanCandidate data it) →
      ∃ j, ∃ hj : j < scan.length,
        scanCandidate data (scan.get ⟨j, hj⟩) ∧
        (bestLoop data scan).2 =
          some (wifiman_findNetworkInList data (some (scan.get ⟨j, hj⟩).ssid)) ∧
        (∃ hb : wifiman_findNetworkInList data (some (scan.get ⟨j, hj⟩).ssid) <
            data.networks.length,
          (data.networks.get ⟨wifiman_findNetworkInList data
              (some (scan.get ⟨j, hj⟩).ssid), hb⟩).state ≠
            NETWORK_FAILED_BEFORE) ∧
        (∀ k, ∀ hk : k < scan.length, scanCandidate data (scan.get ⟨k, hk⟩) →
          (scan.get ⟨k, hk⟩).rssi ≤ (scan.get ⟨j, hj⟩).rssi) ∧
        (∀ k, ∀ hk : k < scan.length, k < j →
          scanCandidate data (scan.get ⟨k, hk⟩) →
          (scan.get ⟨k, hk⟩).rssi < (scan.get ⟨j, hj⟩).rssi) := by
  intro data scan hlen hrssi hcand
  obtain ⟨x, hx, hxc⟩ := hcand
  obtain ⟨j, hj, h1, h2, h3, h4, h5⟩ := bestLoopAux_improve data scan INT_MIN
    none ⟨x, hx, hxc, hrssi x hx⟩
  refine ⟨j, hj, h1, ?_, ?_, h4, h5⟩
  · unfold bestLoop
    rw [h3]
  · obtain ⟨hfl, hst⟩ := h1
    refine ⟨hfl, ?_⟩
    have hge : data.networks.getD
        (wifiman_findNetworkInList data (some (scan.get ⟨j, hj⟩).ssid)) defEntry =
        data.networks.get ⟨wifiman_findNetworkInList data
          (some (scan.get ⟨j, hj⟩).ssid), hfl⟩ := by
      rw [List.getD_eq_getElem _ _ hfl]
      rfl
    rw [← hge]
    exact hst

/-- Witness for C5 at the spec's own scenario: registry
    {("A", worked), ("B", unknown)}, scan [("A", -70), ("B", -40)]; both match
    usable entries, and the selector picks "B" (registry index 1), the
    strongest signal. -/
theorem claim_C5_best_network_selection_witness :
    (∃ j, ∃ hj : j < ([⟨"A", -70⟩, ⟨"B", -40⟩] : List ScanItem).length,
      scanCandidate ⟨⟨255, WM_IDLE_STATUS, 0⟩,
        [⟨"A", some "x", 1⟩, ⟨"B", none, -1⟩], 4⟩
        (([⟨"A", -70⟩, ⟨"B", -40⟩] : List ScanItem).get ⟨j, hj⟩) ∧
      (bestLoop ⟨⟨255, WM_IDLE_STATUS, 0⟩,
          [⟨"A", some "x", 1⟩, ⟨"B", none, -1⟩], 4⟩
          [⟨"A", -70⟩, ⟨"B", -40⟩]).2 =
        some (wifiman_findNetworkInList ⟨⟨255, WM_IDLE_STATUS, 0⟩,
          [⟨"A", some "x", 1⟩, ⟨"B", none, -1⟩], 4⟩
          (some (([⟨"A", -70⟩, ⟨"B", -40⟩] : List ScanItem).get ⟨j, hj⟩).ssid)) ∧
      (∃ hb : wifiman_findNetworkInList ⟨⟨255, WM_IDLE_STATUS, 0⟩,
            [⟨"A", some "x", 1⟩, ⟨"B", none, -1⟩], 4⟩
            (some (([⟨"A", -70⟩, ⟨"B", -40⟩] : List ScanItem).get ⟨j, hj⟩).ssid) <
          ([⟨"A", some "x", 1⟩, ⟨"B", none, -1⟩] : List WM_WifiNetwork).length,
        (([⟨"A", some "x", 1⟩, ⟨"B", none, -1⟩] : List WM_WifiNetwork).get
            ⟨wifiman_findNetworkInList ⟨⟨255, WM_IDLE_STATUS, 0⟩,
              [⟨"A", some "x", 1⟩, ⟨"B", none, -1⟩], 4⟩
              (some (([⟨"A", -70⟩, ⟨"B", -40⟩] : List ScanItem).get
                ⟨j, hj⟩).ssid), hb⟩).state ≠ NETWORK_FAILED_BEFORE) ∧
      (∀ k, ∀ hk : k < ([⟨"A", -70⟩, ⟨"B", -40⟩] : List ScanItem).length,
        scanCandidate ⟨⟨255, WM_IDLE_STATUS, 0⟩,
          [⟨"A", some "x", 1⟩, ⟨"B", none, -1⟩], 4⟩
          (([⟨"A", -70⟩, ⟨"B", -40⟩] : List ScanItem).get ⟨k, hk⟩) →
        (([⟨"A", -70⟩, ⟨"B", -40⟩] : List ScanItem).get ⟨k, hk⟩).rssi ≤
          (([⟨"A", -70⟩, ⟨"B", -40⟩] : List ScanItem).get ⟨j, hj⟩).rssi) ∧
      (∀ k, ∀ hk : k < ([⟨"A", -70⟩, ⟨"B", -40⟩] : List ScanItem).length,
        k < j →
        scanCandidate ⟨⟨255, WM_IDLE_STATUS, 0⟩,
          [⟨"A", some "x", 1⟩, ⟨"B", none, -1⟩], 4⟩
          (([⟨"A", -70⟩, ⟨"B", -40⟩] : List ScanItem).get ⟨k, hk⟩) →
        (([⟨"A", -70⟩, ⟨"B", -40⟩] : List ScanItem).get ⟨k, hk⟩).rssi <
          (([⟨"A", -70⟩, ⟨"B", -40⟩] : List ScanItem).get ⟨j, hj⟩).rssi)) ∧
    (bestLoop ⟨⟨255, WM_IDLE_STATUS, 0⟩,
        [⟨"A", some "x", 1⟩, ⟨"B", none, -1⟩], 4⟩
        [⟨"A", -70⟩, ⟨"B", -40⟩]).2 = some 1 :=
  ⟨claim_C5_best_network_selection
      ⟨⟨255, WM_IDLE_STATUS, 0⟩, [⟨"A", some "x", 1⟩, ⟨"B", none, -1⟩], 4⟩
      [⟨"A", -70⟩, ⟨"B", -40⟩] (by decide)
      (by decide)
      ⟨⟨"B", -40⟩, by decide, by decide⟩,
   by decide⟩

/-! ## Claim C8: EEPROM round trip -/

theorem putSsid_ssidKey (e : EEPROM) (i : Nat) (v : String) (m : Nat) :
    (putSsid e i v).ssidKey m = if m = i then some v else e.ssidKey m := rfl

theorem putSsid_passKey (e : EEPROM) (i : Nat) (v : String) (m : Nat) :
    (putSsid e i v).passKey m = e.passKey m := rfl

theorem putSsid_stateKey (e : EEPROM) (i : Nat) (v : String) (m : Nat) :
    (putSsid e i v).stateKey m = e.stateKey m := rfl

theorem putPass_ssidKey (e : EEPROM) (i : Nat) (v : String) (m : Nat) :
    (putPass e i v).ssidKey m = e.ssidKey m := rfl

theorem putPass_passKey (e : EEPROM) (i : Nat) (v : String) (m : Nat) :
    (putPass e i v).passKey m = if m = i then some v else e.passKey m := rfl

theorem putPass_stateKey (e : EEPROM) (i : Nat) (v : String) (m : Nat) :
    (putPass e i v).stateKey m = e.stateKey m := rfl

theorem putState_ssidKey (e : EEPROM) (i : Nat) (v : Int) (m : Nat) :
    (putState e i v).ssidKey m = e.ssidKey m := rfl

theorem putState_passKey (e : EEPROM) (i : Nat) (v : Int) (m : Nat) :
    (putState e i v).passKey m = e.passKey m := rfl

theorem putState_stateKey (e : EEPROM) (i : Nat) (v : Int) (m : Nat) :
    (putState e i v).stateKey m = if m = i then some v else e.stateKey m := rfl

theorem getD_of_lt (l : List WM_WifiNetwork) (m : Nat) (h : m < l.length) :
    l.getD m defEntry = l.get ⟨m, h⟩ := by
  rw [List.getD_eq_getElem _ _ h]
  rfl

theorem set_get_self (l : List WM_WifiNetwork) :
    ∀ (i : Nat) (h : i < l.length), l.set i (l.get ⟨i, h⟩) = l := by
  induction l with
  | nil => intro i h; simp at h
  | cons a rest ih =>
    intro i h
    cases i with
    | zero => rfl
    | succ j =>
      show a :: rest.set j (rest.get ⟨j, Nat.lt_of_succ_lt_succ h⟩) = a :: rest
      rw [ih j (Nat.lt_of_succ_lt_succ h)]

/-- Key layout after a save pass into a store empty at indices `>= i`:
    every slot of `[i, i+rem)` below `length` holds that entry's fields (the
    pass key exactly when the entry has a passphrase), everything else is as
    before. -/
theorem saveLoop_keys (nets : List WM_WifiNetwork) :
    ∀ (rem i : Nat) (e : EEPROM),
      (∀ m, i ≤ m →
        e.ssidKey m = none ∧ e.passKey m = none ∧ e.stateKey m = none) →
      ∀ m,
        (saveLoop nets e i rem).ssidKey m =
          (if i ≤ m ∧ m < i + rem ∧ m < nets.length
           then some ((nets.getD m defEntry).ssid) else e.ssidKey m) ∧
        (saveLoop nets e i rem).passKey m =
          (if i ≤ m ∧ m < i + rem ∧ m < nets.length
           then (nets.getD m defEntry).pass else e.passKey m) ∧
        (saveLoop nets e i rem).stateKey m =
          (if i ≤ m ∧ m < i + rem ∧ m < nets.length
           then some ((nets.getD m defEntry).state) else e.stateKey m) := by
  intro rem
  induction rem with
  | zero =>
    intro i e hpre m
    simp only [saveLoop]
    refine ⟨?_, ?_, ?_⟩ <;> rw [if_neg (by omega)]
  | succ rem ih =>
    intro i e hpre m
    simp only [saveLoop]
    by_cases hi : i < nets.length
    · rw [dif_pos hi]
      rcases hp : (nets.get ⟨i, hi⟩).pass with _ | p <;> simp only [hp]
      · -- the entry has no passphrase: only ssid and state keys are written
        have hs3 : ∀ m', (putState (putSsid e i (nets.get ⟨i, hi⟩).ssid) i
            (nets.get ⟨i, hi⟩).state).ssidKey m' =
            if m' = i then some ((nets.get ⟨i, hi⟩).ssid) else e.ssidKey m' :=
          fun m' => rfl
        have hp3 : ∀ m', (putState (putSsid e i (nets.get ⟨i, hi⟩).ssid) i
            (nets.get ⟨i, hi⟩).state).passKey m' =
            if m' = i then (nets.get ⟨i, hi⟩).pass else e.passKey m' := by
          intro m'
          rw [putState_passKey, putSsid_passKey, hp]
          by_cases hmi : m' = i
          · subst hmi
            rw [if_pos rfl, (hpre m' (le_refl m')).2.1]
          · rw [if_neg hmi]
        have ht3 : ∀ m', (putState (putSsid e i (nets.get ⟨i, hi⟩).ssid) i
            (nets.get ⟨i, hi⟩).state).stateKey m' =
            if m' = i then some ((nets.get ⟨i, hi⟩).state) else e.stateKey m' := by
          intro m'
          rw [putState_stateKey, putSsid_stateKey]
        have hpre' : ∀ m', i + 1 ≤ m' →
            (putState (putSsid e i (nets.get ⟨i, hi⟩).ssid) i
              (nets.get ⟨i, hi⟩).state).ssidKey m' = none ∧
            (putState (putSsid e i (nets.get ⟨i, hi⟩).ssid) i
              (nets.get ⟨i, hi⟩).state).passKey m' = none ∧
            (putState (putSsid e i (nets.get ⟨i, hi⟩).ssid) i
              (nets.get ⟨i, hi⟩).state).stateKey m' = none := by
          intro m' hm'
          obtain ⟨h1, h2, h3⟩ := hpre m' (by omega)
          rw [hs3 m', hp3 m', ht3 m', if_neg (by omega), if_neg (by omega),
            if_neg (by omega)]
          exact ⟨h1, h2, h3⟩
        obtain ⟨ih1, ih2, ih3⟩ := ih (i + 1)
          (putState (putSsid e i (nets.get ⟨i, hi⟩).ssid) i
            (nets.get ⟨i, hi⟩).state) hpre' m
        refine ⟨?_, ?_, ?_⟩
        · rw [ih1]
          by_cases hcond : i + 1 ≤ m ∧ m < i + 1 + rem ∧ m < nets.length
          · rw [if_pos hcond, if_pos (by omega)]
          · rw [if_neg hcond, hs3 m]
            by_cases hmi : m = i
            · subst hmi
              rw [if_pos rfl, if_pos ⟨le_refl m, by omega, hi⟩, getD_of_lt nets m hi]
            · rw [if_neg hmi, if_neg (by omega)]
        · rw [ih2]
          by_cases hcond : i + 1 ≤ m ∧ m < i + 1 + rem ∧ m < nets.length
          · rw [if_pos hcond, if_pos (by omega)]
          · rw [if_neg hcond, hp3 m]
            by_cases hmi : m = i
            · subst hmi
              rw [if_pos rfl, if_pos ⟨le_refl m, by omega, hi⟩, getD_of_lt nets m hi]
            · rw [if_neg hmi, if_neg (by omega)]
        · rw [ih3]
          by_cases hcond : i + 1 ≤ m ∧ m < i + 1 + rem ∧ m < nets.length
          · rw [if_pos hcond, if_pos (by omega)]
          · rw [if_neg hcond, ht3 m]
            by_cases hmi : m = i
            · subst hmi
              rw [if_pos rfl, if_pos ⟨le_refl m, by omega, hi⟩, getD_of_lt nets m hi]
            · rw [if_neg hmi, if_neg (by omega)]
      · -- the entry has a passphrase: all three keys are written
        have hs3 : ∀ m', (putState (putPass (putSsid e i
            (nets.get ⟨i, hi⟩).ssid) i p) i
            (nets.get ⟨i, hi⟩).state).ssidKey m' =
            if m' = i then some ((nets.get ⟨i, hi⟩).ssid) else e.ssidKey m' :=
          fun m' => rfl
        have hp3 : ∀ m', (putState (putPass (putSsid e i
            (nets.get ⟨i, hi⟩).ssid) i p) i
            (nets.get ⟨i, hi⟩).state).passKey m' =
            if m' = i then (nets.get ⟨i, hi⟩).pass else e.passKey m' := by
          intro m'
          rw [putState_passKey, putPass_passKey, putSsid_passKey, hp]
        have ht3 : ∀ m', (putState (putPass (putSsid e i
            (nets.get ⟨i, hi⟩).ssid) i p) i
            (nets.get ⟨i, hi⟩).state).stateKey m' =
            if m' = i then some ((nets.get ⟨i, hi⟩).state) else e.stateKey m' := by
          intro m'
          rw [putState_stateKey, putPass_stateKey, putSsid_stateKey]
        have hpre' : ∀ m', i + 1 ≤ m' →
            (putState (putPass (putSsid e i (nets.get ⟨i, hi⟩).ssid) i p) i
              (nets.get ⟨i, hi⟩).state).ssidKey m' = none ∧
            (putState (putPass (putSsid e i (nets.get ⟨i, hi⟩).ssid) i p) i
              (nets.get ⟨i, hi⟩).state).passKey m' = none ∧
            (putState (putPass (putSsid e i (nets.get ⟨i, hi⟩).ssid) i p) i
              (nets.get ⟨i, hi⟩).state).stateKey m' = none := by
          intro m' hm'
          obtain ⟨h1, h2, h3⟩ := hpre m' (by omega)
          rw [hs3 m', hp3 m', ht3 m', if_neg (by omega), if_neg (by omega),
            if_neg (by omega)]
          exact ⟨h1, h2, h3⟩
        obtain ⟨ih1, ih2, ih3⟩ := ih (i + 1)
          (putState (putPass (putSsid e i (nets.get ⟨i, hi⟩).ssid) i p) i
            (nets.get ⟨i, hi⟩).state) hpre' m
        refine ⟨?_, ?_, ?_⟩
        · rw [ih1]
          by_cases hcond : i + 1 ≤ m ∧ m < i + 1 + rem ∧ m < nets.length
          · rw [if_pos hcond, if_pos (by omega)]
          · rw [if_neg hcond, hs3 m]
            by_cases hmi : m = i
            · subst hmi
              rw [if_pos rfl, if_pos ⟨le_refl m, by omega, hi⟩, getD_of_lt nets m hi]
            · rw [if_neg hmi, if_neg (by omega)]
        · rw [ih2]
          by_cases hcond : i + 1 ≤ m ∧ m < i + 1 + rem ∧ m < nets.length
          · rw [if_pos hcond, if_pos (by omega)]
          · rw [if_neg hcond, hp3 m]
            by_cases hmi : m = i
            · subst hmi
              rw [if_pos rfl, if_pos ⟨le_refl m, by omega, hi⟩, getD_of_lt nets m hi]
            · rw [if_neg hmi, if_neg (by omega)]
        · rw [ih3]
          by_cases hcond : i + 1 ≤ m ∧ m < i + 1 + rem ∧ m < nets.length
          · rw [if_pos hcond, if_pos (by omega)]
          · rw [if_neg hcond, ht3 m]
            by_cases hmi : m = i
            · subst hmi
              rw [if_pos rfl, if_pos ⟨le_refl m, by omega, hi⟩, getD_of_lt nets m hi]
            · rw [if_neg hmi, if_neg (by omega)]
    · rw [dif_neg hi]
      rw [(hpre i (le_refl i)).1]
      refine ⟨?_, ?_, ?_⟩ <;> rw [if_neg (by omega)]

/-- Reading a range whose keys hold exactly the current entries (no
    empty-string passphrase) rebuilds the same list. -/
theorem readLoop_roundtrip (e : EEPROM) (nets : List WM_WifiNetwork)
    (hpassne : ∀ n ∈ nets, n.pass ≠ some "") :
    ∀ (rem i acc : Nat),
      (∀ m, i ≤ m → m < i + rem →
        (m < nets.length →
          e.ssidKey m = some ((nets.getD m defEntry).ssid) ∧
          e.passKey m = (nets.getD m defEntry).pass ∧
          e.stateKey m = some ((nets.getD m defEntry).state)) ∧
        (nets.length ≤ m → e.ssidKey m = none)) →
      ∃ cnt, readLoop e nets i rem acc = some (nets, cnt) := by
  intro rem
  induction rem with
  | zero => intro i acc _; exact ⟨acc, rfl⟩
  | succ rem ih =>
    intro i acc hkeys
    simp only [readLoop]
    by_cases hi : i < nets.length
    · obtain ⟨h1, h2, h3⟩ := (hkeys i (le_refl i) (by omega)).1 hi
      simp only [h1, h2, h3]
      rcases hp : (nets.getD i defEntry).pass with _ | p <;> simp only [hp]
      · rw [if_pos hi]
        have hentry : (WM_WifiNetwork.mk (nets.getD i defEntry).ssid none
            ((some ((nets.getD i defEntry).state)).getD 0)) =
            nets.get ⟨i, hi⟩ := by
          rw [← hp, Option.getD_some, ← getD_of_lt nets i hi]
        rw [hentry, set_get_self nets i hi]
        exact ih (i + 1) (acc + 1)
          (fun m hm1 hm2 => hkeys m (by omega) (by omega))
      · have hpne : ¬ p = "" := by
          intro habs
          subst habs
          apply hpassne (nets.get ⟨i, hi⟩) (nets.get_mem _ _)
          rw [← getD_of_lt nets i hi, hp]
        rw [if_neg hpne, if_pos hi]
        have hentry : (WM_WifiNetwork.mk (nets.getD i defEntry).ssid (some p)
            ((some ((nets.getD i defEntry).state)).getD 0)) =
            nets.get ⟨i, hi⟩ := by
          rw [← hp, Option.getD_some, ← getD_of_lt nets i hi]
        rw [hentry, set_get_self nets i hi]
        exact ih (i + 1) (acc + 1)
          (fun m hm1 hm2 => hkeys m (by omega) (by omega))
    · rw [(hkeys i (le_refl i) (by omega)).2 (by omega)]
      exact ⟨acc, rfl⟩

/-- C8 counterexample: a registry slot whose passphrase is the empty string
    does not round-trip: save writes an empty pass key, and read maps the
    empty string back to "no passphrase" (`valuePass[0] != 0` at
    wifi_manager.cpp:235), so the reloaded tuple differs from the saved one. -/
theorem claim_C8_counterexample :
    wifiman_readFromEEPROM ⟨⟨255, WM_IDLE_STATUS, 0⟩, [⟨"A", some "", -1⟩], 4⟩
      0 1 (wifiman_saveToEEPROM ⟨⟨255, WM_IDLE_STATUS, 0⟩,
        [⟨"A", some "", -1⟩], 4⟩ 0 1 emptyEEPROM) =
      some (⟨⟨255, WM_IDLE_STATUS, 0⟩, [⟨"A", none, -1⟩], 4⟩, 1) ∧
    (⟨"A", none, -1⟩ : WM_WifiNetwork) ≠ ⟨"A", some "", -1⟩ := by
  constructor
  · rfl
  · decide

/-- C8 (amended): starting from an EEPROM holding no keys, a save of any
    index range followed by a read of the same range reproduces the identical
    (ssid, passphrase-or-absent, state) tuple in every slot — the whole
    registry is unchanged — provided no stored passphrase is the empty string
    (an empty-string passphrase reads back as absent, see the
    counterexample); `length <= capacity <= 254` are the bounds every
    `wifiman_create` registry satisfies. -/
theorem claim_C8_eeprom_roundtrip :
    ∀ (data : WM_SharedData) (startIndex count : Nat),
      data.networks.length ≤ data.capacity →
      data.capacity ≤ 254 →
      (∀ n ∈ data.networks, n.pass ≠ some "") →
      ∃ cnt,
        wifiman_readFromEEPROM data startIndex count
          (wifiman_saveToEEPROM data startIndex count emptyEEPROM) =
          some (data, cnt) := by
  intro data s c hcap h254 hpass
  by_cases hc0 : c = 0
  · subst hc0
    unfold wifiman_saveToEEPROM wifiman_readFromEEPROM
    rw [if_pos rfl]
    have hrem : min (s + 0) data.capacity - s = 0 := by omega
    rw [hrem]
    exact ⟨0, rfl⟩
  · have hE : wifiman_saveToEEPROM data s c emptyEEPROM =
        saveLoop data.networks emptyEEPROM s
          (min (s + (if c = 255 then data.capacity - s else c))
            data.capacity - s) := by
      unfold wifiman_saveToEEPROM
      rw [if_neg hc0]
    have hremEq : min (s + c) data.capacity - s =
        min (s + (if c = 255 then data.capacity - s else c))
          data.capacity - s := by
      by_cases h255 : c = 255
      · subst h255
        rw [if_pos rfl]
        omega
      · rw [if_neg h255]
    have hkeys := saveLoop_keys data.networks
      (min (s + (if c = 255 then data.capacity - s else c)) data.capacity - s)
      s emptyEEPROM (fun m _ => ⟨rfl, rfl, rfl⟩)
    have hread : ∀ m, s ≤ m →
        m < s + (min (s + (if c = 255 then data.capacity - s else c))
          data.capacity - s) →
        (m < data.networks.length →
          (wifiman_saveToEEPROM data s c emptyEEPROM).ssidKey m =
            some ((data.networks.getD m defEntry).ssid) ∧
          (wifiman_saveToEEPROM data s c emptyEEPROM).passKey m =
            (data.networks.getD m defEntry).pass ∧
          (wifiman_saveToEEPROM data s c emptyEEPROM).stateKey m =
            some ((data.networks.getD m defEntry).state)) ∧
        (data.networks.length ≤ m →
          (wifiman_saveToEEPROM data s c emptyEEPROM).ssidKey m = none) := by
      intro m hm1 hm2
      obtain ⟨k1, k2, k3⟩ := hkeys m
      rw [hE]
      refine ⟨fun hmlen => ⟨?_, ?_, ?_⟩, fun hlen => ?_⟩
      · rw [k1, if_pos ⟨hm1, by omega, hmlen⟩]
      · rw [k2, if_pos ⟨hm1, by omega, hmlen⟩]
      · rw [k3, if_pos ⟨hm1, by omega, hmlen⟩]
      · rw [k1, if_neg (by omega)]
        rfl
    obtain ⟨cnt, hcnt⟩ := readLoop_roundtrip
      (wifiman_saveToEEPROM data s c emptyEEPROM) data.networks hpass
      (min (s + (if c = 255 then data.capacity - s else c)) data.capacity - s)
      s 0 hread
    refine ⟨cnt, ?_⟩
    unfold wifiman_readFromEEPROM
    rw [hremEq, hcnt]
    rfl

/-- Witness for C8 (amended): a two-entry registry (one entry without a
    passphrase) saved with the "whole list" count marker 255 reads back
    unchanged. -/
theorem claim_C8_eeprom_roundtrip_witness :
    ∃ cnt,
      wifiman_readFromEEPROM
        ⟨⟨255, WM_IDLE_STATUS, 0⟩,
          [⟨"home", some "pw", 1⟩, ⟨"guest", none, -1⟩], 4⟩ 0 255
        (wifiman_saveToEEPROM
          ⟨⟨255, WM_IDLE_STATUS, 0⟩,
            [⟨"home", some "pw", 1⟩, ⟨"guest", none, -1⟩], 4⟩ 0 255
          emptyEEPROM) =
        some (⟨⟨255, WM_IDLE_STATUS, 0⟩,
          [⟨"home", some "pw", 1⟩, ⟨"guest", none, -1⟩], 4⟩, cnt) :=
  claim_C8_eeprom_roundtrip
    ⟨⟨255, WM_IDLE_STATUS, 0⟩, [⟨"home", some "pw", 1⟩, ⟨"guest", none, -1⟩], 4⟩
    0 255 (by decide) (by decide) (by decide)

end Wifiman
